import Mathlib

/-
Verification of the round/judgment/reason-rule core of the
book.lasvegas.api prediction-tournament service.

The definitions below are a shallow embedding of the TypeScript source:

  * `src/services/klineService.ts`   — interval parsing, kline normalization
  * `src/services/reasonRuleService.ts` — reason-rule normalization,
    close-time alignment, outcome computation, the candle/indicator/
    structure pattern evaluator, and the at-submit evaluation
  * `src/services/roundService.ts`   — round lifecycle (start / lock /
    cancel / settle), verdict computation, scoring
  * `src/services/judgmentValidation.ts` and the `/api/v1/judgments`
    handler — judgment payload validation and the submit flow
  * `src/db.ts` — retention trimming and default-agent seeding

Conventions of the embedding:

  * JavaScript numbers are modelled as `ℚ` (prices, percentages) or `ℤ`
    (millisecond timestamps, scores, confidences).  `Math.round` is
    round-half-up (`⌊q + 1/2⌋`), `Math.floor` on a real quotient of
    integers is `Int.fdiv`.
  * JS `NaN` / `undefined` holes are modelled with `Option`.
  * Functions that `throw` are modelled in `Except String`.
  * The D1 row store is modelled as lists of rows inside a `State`
    record; a SQL batch is a pure state transformer.  A handler that
    throws before its batch leaves the state unchanged, which the
    embedding makes explicit by returning the input state next to an
    `Except.error`.
-/

/- Batteries marks rational arithmetic `@[irreducible]`; witnesses here
evaluate concrete states by `decide`, which needs it reducible. -/
set_option allowUnsafeReducibility true
attribute [semireducible] Rat.sub Rat.add Rat.mul Rat.div Rat.neg Rat.inv

namespace BookApi

/-- JS `Math.round`: round half toward positive infinity. -/
def jsRound (q : ℚ) : ℤ := ⌊q + 1/2⌋

/-- JS `String.prototype.toLowerCase` (ASCII, as used here). -/
def toLowerStr (s : String) : String := String.mk (s.data.map Char.toLower)

/-- JS `String.prototype.toUpperCase` (ASCII, as used here). -/
def toUpperStr (s : String) : String := String.mk (s.data.map Char.toUpper)

/-- JS `String.prototype.trim`. -/
def trimStr (s : String) : String :=
  String.mk
    (((s.data.dropWhile Char.isWhitespace).reverse.dropWhile
      Char.isWhitespace).reverse)

/-- JS `Number(...)` restricted to decimal-digit strings (every
whitelisted interval count is one); other strings read as `NaN`
(`none`), and `""` (JS value `0`) also maps to `none`, which the
callers below treat identically to `0` (both fail the `count > 0`
check). -/
def parseDigits (cs : List Char) : Option ℕ :=
  if cs.isEmpty then none
  else if cs.all Char.isDigit then
    some (cs.foldl (fun acc c => acc * 10 + (c.toNat - 48)) 0)
  else none

/-- Stable insertion sort used to model SQL `ORDER BY` and JS
`Array.prototype.sort` (structurally recursive so that concrete states
evaluate inside proofs). -/
def insertSorted {α : Type} (le : α → α → Bool) (a : α) : List α → List α
  | [] => [a]
  | b :: t => if le b a then b :: insertSorted le a t else a :: b :: t

/-- Sort by repeatedly inserting; stable for the `le` given. -/
def stableSortBy {α : Type} (le : α → α → Bool) (l : List α) : List α :=
  l.foldl (fun acc x => insertSorted le x acc) []

/-- JS `Number(x.toFixed(2))` on the values used here: round to 2
decimal places, ties toward positive infinity. -/
def roundTo2 (q : ℚ) : ℚ := (jsRound (q * 100) : ℚ) / 100

/-- JS `Number(x.toFixed(1))`, as used for `delta_pct` of a verdict. -/
def roundTo1 (q : ℚ) : ℚ := (jsRound (q * 10) : ℚ) / 10

/-- The interval whitelist `VALID_INTERVALS` of `klineService.ts`, also
`SUPPORTED_INTERVALS` consumed by `reasonRuleService.ts` and
`judgmentValidation.ts`. -/
def VALID_INTERVALS : List String :=
  ["1m", "3m", "5m", "15m", "30m", "1h", "4h", "12h", "1d"]

/-- `intervalToMs` from `klineService.ts`: last character is the unit,
the rest is the count (JS `Number(...)`, here a decimal-digit parser,
which covers every whitelisted interval); positive count required. -/
def intervalToMs (interval : String) : Except String ℤ :=
  let unit : Option Char := interval.data.getLast?
  match parseDigits interval.data.dropLast with
  | none => .error ("Invalid interval: " ++ interval)
  | some count =>
    if count = 0 then .error ("Invalid interval: " ++ interval)
    else
      match unit with
      | some 'm' => .ok ((count : ℤ) * 60 * 1000)
      | some 'h' => .ok ((count : ℤ) * 60 * 60 * 1000)
      | some 'd' => .ok ((count : ℤ) * 24 * 60 * 60 * 1000)
      | _ => .error ("Invalid interval: " ++ interval)

/-- `alignCloseTimeMs` from `reasonRuleService.ts`:
`Math.floor(analysisEndTimeMs / intervalMs) * intervalMs - 1`. -/
def alignCloseTimeMs (analysisEndTimeMs : ℤ) (timeframe : String) :
    Except String ℤ :=
  (intervalToMs timeframe).map
    (fun intervalMs => analysisEndTimeMs.fdiv intervalMs * intervalMs - 1)

/-- `computeOutcome` from `reasonRuleService.ts`.  Outcome strings are
"UP" / "DOWN" / "FLAT" exactly as in the source. -/
def computeOutcome (baseClose targetClose flatThresholdPct : ℚ) :
    String × ℚ :=
  let deltaPct := (targetClose - baseClose) / baseClose * 100
  if |deltaPct| < flatThresholdPct then ("FLAT", deltaPct)
  else (if deltaPct > 0 then "UP" else "DOWN", deltaPct)

/-- `computeResult` from `roundService.ts` (verdict result from the
round's delta percentage). -/
def computeResult (deltaPct flatThresholdPct : ℚ) : String :=
  if |deltaPct| < flatThresholdPct then "FLAT"
  else if deltaPct > 0 then "UP" else "DOWN"

/-! ## Klines and OHLC bars -/

/-- A normalized kline row (`Kline` of `types.ts`).  The JS field `open`
is a Lean keyword and is rendered `open_`. -/
structure Kline where
  open_time : ℤ
  close_time : ℤ
  open_ : ℚ
  high : ℚ
  low : ℚ
  close : ℚ
  volume : ℚ
  trades_count : ℤ
  deriving DecidableEq, Repr

/-- A raw Hyperliquid candle as consumed by `normalizeKlines`
(`klineService.ts`): `T` and `n` may be absent. -/
structure HyperliquidCandle where
  t : ℤ
  T : Option ℤ
  o : ℚ
  h : ℚ
  l : ℚ
  c : ℚ
  v : ℚ
  n : Option ℤ
  deriving DecidableEq, Repr

/-- `normalizeKlines` from `klineService.ts`: `close_time` is the
upstream `T` when present (and finite), else `open_time + intervalMs`. -/
def normalizeKlines (candles : List HyperliquidCandle) (intervalMs : ℤ) :
    List Kline :=
  candles.map (fun candle =>
    { open_time := candle.t
      close_time := match candle.T with | some tc => tc | none => candle.t + intervalMs
      open_ := candle.o
      high := candle.h
      low := candle.l
      close := candle.c
      volume := candle.v
      trades_count := match candle.n with | some m => m | none => 0 })

/-! ## Pattern evaluator (`reasonRuleService.ts`) -/

/-- The pattern whitelist `REASON_RULE_PATTERNS`. -/
def REASON_RULE_PATTERNS : List String :=
  ["candle.bullish_engulfing.v1",
   "candle.bearish_engulfing.v1",
   "candle.hammer.v1",
   "candle.shooting_star.v1",
   "candle.doji.v1",
   "candle.inside_bar.v1",
   "candle.outside_bar.v1",
   "candle.morning_star.v1",
   "candle.evening_star.v1",
   "candle.three_white_soldiers.v1",
   "candle.three_black_crows.v1",
   "indicator.ema20_gt_ema50.v1",
   "indicator.ema20_lt_ema50.v1",
   "indicator.ema20_cross_up_ema50.v1",
   "indicator.ema20_cross_down_ema50.v1",
   "indicator.rsi14_lt_30.v1",
   "indicator.rsi14_gt_70.v1",
   "breakout.close_gt_high_20.v1",
   "breakout.close_lt_low_20.v1",
   "breakout.close_gt_high_55.v1",
   "breakout.close_lt_low_55.v1",
   "structure.double_top_60.v1",
   "structure.double_bottom_60.v1",
   "structure.head_and_shoulders_90.v1",
   "structure.inverse_head_and_shoulders_90.v1"]

def PIVOT_SPAN : ℕ := 2

/-- OHLC view of a bar used inside `evaluatePattern`. -/
structure Ohlc where
  open_ : ℚ
  high : ℚ
  low : ℚ
  close : ℚ
  deriving DecidableEq, Repr

instance : Inhabited Ohlc := ⟨⟨0, 0, 0, 0⟩⟩

def body (bar : Ohlc) : ℚ := |bar.close - bar.open_|

def range (bar : Ohlc) : ℚ := bar.high - bar.low

def upper (bar : Ohlc) : ℚ := bar.high - max bar.open_ bar.close

def lower (bar : Ohlc) : ℚ := min bar.open_ bar.close - bar.low

/-- `clampSlice`: the last `count` bars (all bars when shorter). -/
def clampSlice (bars : List Ohlc) (count : ℕ) : List Ohlc :=
  if bars.length ≤ count then bars else bars.drop (bars.length - count)

/-- `atRel`: the bar at offset `rel` from the last bar. -/
def atRel (bars : List Ohlc) (rel : ℤ) : Option Ohlc :=
  let idx : ℤ := (bars.length : ℤ) - 1 + rel
  if idx < 0 then none else bars[idx.toNat]?

def isBetween (value a b : ℚ) : Bool :=
  decide (min a b ≤ value ∧ value ≤ max a b)

/-- Recursive EMA steps after the seed: `e = α·c + (1-α)·prev`. -/
def emaFrom (alpha : ℚ) : ℚ → List ℚ → List ℚ
  | _, [] => []
  | prev, c :: rest =>
    let e := alpha * c + (1 - alpha) * prev
    e :: emaFrom alpha e rest

/-- `computeEma`: `NaN` entries (indices before `period - 1`, or the
whole array when there are fewer closes than `period`) are `none`. -/
def computeEma (closes : List ℚ) (period : ℕ) : List (Option ℚ) :=
  if closes.length < period then List.replicate closes.length none
  else
    let seed := (closes.take period).sum / (period : ℚ)
    List.replicate (period - 1) none ++ [some seed] ++
      (emaFrom (2 / ((period : ℚ) + 1)) seed (closes.drop period)).map some

/-- The RSI formula of `computeRsi`: `avgLoss = 0 ↦ 100`,
`avgGain = 0 ↦ 0`, else `100 - 100/(1 + gain/loss)`. -/
def toRsi (g l : ℚ) : ℚ :=
  if l = 0 then 100 else if g = 0 then 0 else 100 - 100 / (1 + g / l)

/-- Wilder smoothing steps of `computeRsi` after the seed averages. -/
def rsiFrom (period : ℚ) : ℚ × ℚ → List ℚ → List ℚ
  | _, [] => []
  | (g, l), d :: rest =>
    let g2 := (g * (period - 1) + max d 0) / period
    let l2 := (l * (period - 1) + max (-d) 0) / period
    toRsi g2 l2 :: rsiFrom period (g2, l2) rest

/-- `computeRsi`: all-`none` when `closes.length ≤ period`, else `none`
up to index `period - 1` and RSI values from index `period`. -/
def computeRsi (closes : List ℚ) (period : ℕ) : List (Option ℚ) :=
  if closes.length ≤ period then List.replicate closes.length none
  else
    let deltas := List.zipWith (fun a b => b - a) closes (closes.drop 1)
    let seed := deltas.take period
    let avgGain := (seed.map (fun d => max d 0)).sum / (period : ℚ)
    let avgLoss := (seed.map (fun d => max (-d) 0)).sum / (period : ℚ)
    List.replicate period none ++ [some (toRsi avgGain avgLoss)] ++
      (rsiFrom (period : ℚ) (avgGain, avgLoss) (deltas.drop period)).map some

structure Pivot where
  idx : ℕ
  price : ℚ
  deriving DecidableEq, Repr

instance : Inhabited Pivot := ⟨⟨0, 0⟩⟩

/-- Index into a bar list; only used at indices proven in range by the
pivot scan bounds. -/
def barAt (bars : List Ohlc) (i : ℕ) : Ohlc := bars.getD i default

def isPivotHigh (bars : List Ohlc) (i : ℕ) : Bool :=
  decide ((barAt bars (i - 1)).high < (barAt bars i).high ∧
    (barAt bars (i + 1)).high < (barAt bars i).high ∧
    (barAt bars (i - 2)).high < (barAt bars i).high ∧
    (barAt bars (i + 2)).high < (barAt bars i).high)

def isPivotLow (bars : List Ohlc) (i : ℕ) : Bool :=
  decide ((barAt bars i).low < (barAt bars (i - 1)).low ∧
    (barAt bars i).low < (barAt bars (i + 1)).low ∧
    (barAt bars i).low < (barAt bars (i - 2)).low ∧
    (barAt bars i).low < (barAt bars (i + 2)).low)

/-- `findPivots`: pivot highs and lows (span 2) inside the last
`lookbackBars` bars, excluding `PIVOT_SPAN` bars on each edge. -/
def findPivots (bars : List Ohlc) (lookbackBars : ℕ) :
    List Pivot × List Pivot :=
  let n := bars.length
  let startIdx := max PIVOT_SPAN (n - lookbackBars)
  let endExclusive := n - PIVOT_SPAN
  let idxs := List.range' startIdx (endExclusive - startIdx)
  ((idxs.filter (isPivotHigh bars)).map
      (fun i => ⟨i, (barAt bars i).high⟩),
   (idxs.filter (isPivotLow bars)).map
      (fun i => ⟨i, (barAt bars i).low⟩))

def evaluateStructureDoubleTop (bars : List Ohlc) (lookback : ℕ) : Bool :=
  let highs := (findPivots bars lookback).1
  if highs.length < 2 then false
  else
    match highs.getLast? with
    | none => false
    | some p2 =>
      match (highs.dropLast.reverse).find? (fun p => 5 ≤ p2.idx - p.idx) with
      | none => false
      | some p1 =>
        let avg := (p1.price + p2.price) / 2
        if avg ≤ 0 then false
        else if 1/100 < |p2.price - p1.price| / avg then false
        else if p2.idx - p1.idx < 2 then false
        else
          match ((List.range' (p1.idx + 1) (p2.idx - (p1.idx + 1))).map
              (fun i => (barAt bars i).low)).min? with
          | none => false
          | some neckline =>
            decide ((barAt bars (bars.length - 1)).close < neckline)

def evaluateStructureDoubleBottom (bars : List Ohlc) (lookback : ℕ) : Bool :=
  let lows := (findPivots bars lookback).2
  if lows.length < 2 then false
  else
    match lows.getLast? with
    | none => false
    | some p2 =>
      match (lows.dropLast.reverse).find? (fun p => 5 ≤ p2.idx - p.idx) with
      | none => false
      | some p1 =>
        let avg := (p1.price + p2.price) / 2
        if avg ≤ 0 then false
        else if 1/100 < |p2.price - p1.price| / avg then false
        else if p2.idx - p1.idx < 2 then false
        else
          match ((List.range' (p1.idx + 1) (p2.idx - (p1.idx + 1))).map
              (fun i => (barAt bars i).high)).max? with
          | none => false
          | some neckline =>
            decide (neckline < (barAt bars (bars.length - 1)).close)

/-- `findMostRecentLowBetween` / `findMostRecentHighBetween`: the latest
pivot strictly between two indices. -/
def findMostRecentBetween (pivots : List Pivot) (startIdx endIdx : ℕ) :
    Option Pivot :=
  pivots.reverse.find? (fun p => decide (startIdx < p.idx ∧ p.idx < endIdx))

/-- The per-triple conditions of the head-and-shoulders scan, including
the `continue` guards of the source loop. -/
def hsTripleOk (bars : List Ohlc) (lows : List Pivot)
    (ls head rs : Pivot) : Bool :=
  if rs.idx ≤ head.idx then false
  else if head.idx ≤ ls.idx then false
  else
    let shoulderAvg := (ls.price + rs.price) / 2
    if shoulderAvg ≤ 0 then false
    else if 1/100 < |ls.price - rs.price| / shoulderAvg then false
    else if head.price < max ls.price rs.price * (101/100) then false
    else
      match findMostRecentBetween lows ls.idx head.idx,
          findMostRecentBetween lows head.idx rs.idx with
      | some trough1, some trough2 =>
        decide ((barAt bars (bars.length - 1)).close <
          (trough1.price + trough2.price) / 2)
      | _, _ => false

def evaluateStructureHeadAndShoulders (bars : List Ohlc) (lookback : ℕ) :
    Bool :=
  let pivots := findPivots bars lookback
  let highs := pivots.1
  if highs.length < 3 then false
  else
    (List.range highs.length).any (fun rsPos =>
      decide (2 ≤ rsPos) &&
      (List.range rsPos).any (fun headPos =>
        decide (1 ≤ headPos) &&
        (List.range headPos).any (fun lsPos =>
          hsTripleOk bars pivots.2 (highs.getD lsPos default)
            (highs.getD headPos default) (highs.getD rsPos default))))

/-- The inverse-pattern per-triple conditions (pivot lows mirrored). -/
def ihsTripleOk (bars : List Ohlc) (highs : List Pivot)
    (ls head rs : Pivot) : Bool :=
  if rs.idx ≤ head.idx then false
  else if head.idx ≤ ls.idx then false
  else
    let shoulderAvg := (ls.price + rs.price) / 2
    if shoulderAvg ≤ 0 then false
    else if 1/100 < |ls.price - rs.price| / shoulderAvg then false
    else if min ls.price rs.price * (99/100) < head.price then false
    else
      match findMostRecentBetween highs ls.idx head.idx,
          findMostRecentBetween highs head.idx rs.idx with
      | some peak1, some peak2 =>
        decide ((peak1.price + peak2.price) / 2 <
          (barAt bars (bars.length - 1)).close)
      | _, _ => false

def evaluateStructureInverseHeadAndShoulders (bars : List Ohlc)
    (lookback : ℕ) : Bool :=
  let pivots := findPivots bars lookback
  let lows := pivots.2
  if lows.length < 3 then false
  else
    (List.range lows.length).any (fun rsPos =>
      decide (2 ≤ rsPos) &&
      (List.range rsPos).any (fun headPos =>
        decide (1 ≤ headPos) &&
        (List.range headPos).any (fun lsPos =>
          ihsTripleOk bars pivots.1 (lows.getD lsPos default)
            (lows.getD headPos default) (lows.getD rsPos default))))

/-- `getPatternRequiredBars`: the fixed minimum bar count per pattern;
errors on an unknown pattern id. -/
def getPatternRequiredBars (patternId : String) : Except String ℕ :=
  match patternId with
  | "candle.bullish_engulfing.v1" | "candle.bearish_engulfing.v1"
  | "candle.inside_bar.v1" | "candle.outside_bar.v1" => .ok 2
  | "candle.morning_star.v1" | "candle.evening_star.v1"
  | "candle.three_white_soldiers.v1" | "candle.three_black_crows.v1" => .ok 3
  | "candle.hammer.v1" | "candle.shooting_star.v1" | "candle.doji.v1" => .ok 1
  | "indicator.ema20_gt_ema50.v1" | "indicator.ema20_lt_ema50.v1" => .ok 50
  | "indicator.ema20_cross_up_ema50.v1"
  | "indicator.ema20_cross_down_ema50.v1" => .ok 51
  | "indicator.rsi14_lt_30.v1" | "indicator.rsi14_gt_70.v1" => .ok 15
  | "breakout.close_gt_high_20.v1" | "breakout.close_lt_low_20.v1" => .ok 21
  | "breakout.close_gt_high_55.v1" | "breakout.close_lt_low_55.v1" => .ok 56
  | "structure.double_top_60.v1" | "structure.double_bottom_60.v1" =>
    .ok (60 + PIVOT_SPAN * 2)
  | "structure.head_and_shoulders_90.v1"
  | "structure.inverse_head_and_shoulders_90.v1" =>
    .ok (90 + PIVOT_SPAN * 2)
  | _ => .error ("Unsupported pattern: " ++ patternId)

/-- Index an indicator array at a (possibly negative) JS index; out of
range and negative indices read as `NaN` (`none`). -/
def optAt (l : List (Option ℚ)) (i : ℤ) : Option ℚ :=
  if i < 0 then none else l.getD i.toNat none

/-- The shared EMA switch block of `evaluatePattern` for the four
`indicator.ema*` ids. -/
def emaPatternHolds (patternId : String) (bars : List Ohlc) : Bool :=
  let closes := bars.map (·.close)
  let ema20 := computeEma closes 20
  let ema50 := computeEma closes 50
  let last : ℤ := (closes.length : ℤ) - 1
  match optAt ema20 last, optAt ema50 last with
  | some e20, some e50 =>
    if patternId = "indicator.ema20_gt_ema50.v1" then decide (e50 < e20)
    else if patternId = "indicator.ema20_lt_ema50.v1" then decide (e20 < e50)
    else
      match optAt ema20 (last - 1), optAt ema50 (last - 1) with
      | some e20p, some e50p =>
        if patternId = "indicator.ema20_cross_up_ema50.v1" then
          decide (e20p ≤ e50p ∧ e50 < e20)
        else decide (e50p ≤ e20p ∧ e20 < e50)
      | _, _ => false
  | _, _ => false

/-- The shared RSI switch block of `evaluatePattern`. -/
def rsiPatternHolds (patternId : String) (bars : List Ohlc) : Bool :=
  let closes := bars.map (·.close)
  let rsi := computeRsi closes 14
  match optAt rsi ((closes.length : ℤ) - 1) with
  | some value =>
    if patternId = "indicator.rsi14_lt_30.v1" then decide (value < 30)
    else decide (70 < value)
  | none => false

/-- `evaluatePattern` on the OHLC projection: `ok false` when there is
no current bar; one case per whitelisted pattern id; error otherwise. -/
def evalPatternBars (patternId : String) (bars : List Ohlc) :
    Except String Bool :=
  match atRel bars 0 with
  | none => .ok false
  | some current =>
    match patternId with
    | "candle.bullish_engulfing.v1" =>
      .ok (match atRel bars (-1) with
        | none => false
        | some prev =>
          decide (prev.close < prev.open_ ∧ current.open_ < current.close ∧
            current.open_ ≤ prev.close ∧ prev.open_ ≤ current.close))
    | "candle.bearish_engulfing.v1" =>
      .ok (match atRel bars (-1) with
        | none => false
        | some prev =>
          decide (prev.open_ < prev.close ∧ current.close < current.open_ ∧
            prev.close ≤ current.open_ ∧ current.close ≤ prev.open_))
    | "candle.hammer.v1" =>
      .ok (let r := range current
        if r ≤ 0 then false
        else
          let b := body current
          decide (b / r ≤ 3/10 ∧ 2 * b ≤ lower current ∧
            upper current ≤ 1/4 * r))
    | "candle.shooting_star.v1" =>
      .ok (let r := range current
        if r ≤ 0 then false
        else
          let b := body current
          decide (b / r ≤ 3/10 ∧ 2 * b ≤ upper current ∧
            lower current ≤ 1/4 * r))
    | "candle.doji.v1" =>
      .ok (let r := range current
        if r ≤ 0 then false
        else decide (body current / r ≤ 1/10))
    | "candle.inside_bar.v1" =>
      .ok (match atRel bars (-1) with
        | none => false
        | some prev =>
          decide (current.high ≤ prev.high ∧ prev.low ≤ current.low))
    | "candle.outside_bar.v1" =>
      .ok (match atRel bars (-1) with
        | none => false
        | some prev =>
          decide (prev.high ≤ current.high ∧ current.low ≤ prev.low))
    | "candle.morning_star.v1" =>
      .ok (match atRel bars (-2), atRel bars (-1) with
        | some b2, some b1 =>
          let r2 := range b2
          let r1 := range b1
          if r2 ≤ 0 ∨ r1 ≤ 0 then false
          else
            decide (b2.close < b2.open_ ∧ 1/2 ≤ body b2 / r2 ∧
              body b1 / r1 ≤ 3/10 ∧ current.open_ < current.close ∧
              (b2.open_ + b2.close) / 2 ≤ current.close)
        | _, _ => false)
    | "candle.evening_star.v1" =>
      .ok (match atRel bars (-2), atRel bars (-1) with
        | some b2, some b1 =>
          let r2 := range b2
          let r1 := range b1
          if r2 ≤ 0 ∨ r1 ≤ 0 then false
          else
            decide (b2.open_ < b2.close ∧ 1/2 ≤ body b2 / r2 ∧
              body b1 / r1 ≤ 3/10 ∧ current.close < current.open_ ∧
              current.close ≤ (b2.open_ + b2.close) / 2)
        | _, _ => false)
    | "candle.three_white_soldiers.v1" =>
      .ok (match atRel bars (-2), atRel bars (-1) with
        | some b2, some b1 =>
          decide (b2.open_ < b2.close ∧ b1.open_ < b1.close ∧
              current.open_ < current.close ∧ b2.close < b1.close ∧
              b1.close < current.close) &&
            isBetween b1.open_ (min b2.open_ b2.close) (max b2.open_ b2.close) &&
            isBetween current.open_ (min b1.open_ b1.close) (max b1.open_ b1.close)
        | _, _ => false)
    | "candle.three_black_crows.v1" =>
      .ok (match atRel bars (-2), atRel bars (-1) with
        | some b2, some b1 =>
          decide (b2.close < b2.open_ ∧ b1.close < b1.open_ ∧
              current.close < current.open_ ∧ b1.close < b2.close ∧
              current.close < b1.close) &&
            isBetween b1.open_ (min b2.open_ b2.close) (max b2.open_ b2.close) &&
            isBetween current.open_ (min b1.open_ b1.close) (max b1.open_ b1.close)
        | _, _ => false)
    | "indicator.ema20_gt_ema50.v1" => .ok (emaPatternHolds patternId bars)
    | "indicator.ema20_lt_ema50.v1" => .ok (emaPatternHolds patternId bars)
    | "indicator.ema20_cross_up_ema50.v1" =>
      .ok (emaPatternHolds patternId bars)
    | "indicator.ema20_cross_down_ema50.v1" =>
      .ok (emaPatternHolds patternId bars)
    | "indicator.rsi14_lt_30.v1" => .ok (rsiPatternHolds patternId bars)
    | "indicator.rsi14_gt_70.v1" => .ok (rsiPatternHolds patternId bars)
    | "breakout.close_gt_high_20.v1" =>
      .ok (if bars.length < 21 then false
        else
          match (((clampSlice bars 21).dropLast).map (·.high)).max? with
          | some prevHigh => decide (prevHigh < current.close)
          | none => false)
    | "breakout.close_lt_low_20.v1" =>
      .ok (if bars.length < 21 then false
        else
          match (((clampSlice bars 21).dropLast).map (·.low)).min? with
          | some prevLow => decide (current.close < prevLow)
          | none => false)
    | "breakout.close_gt_high_55.v1" =>
      .ok (if bars.length < 56 then false
        else
          match (((clampSlice bars 56).dropLast).map (·.high)).max? with
          | some prevHigh => decide (prevHigh < current.close)
          | none => false)
    | "breakout.close_lt_low_55.v1" =>
      .ok (if bars.length < 56 then false
        else
          match (((clampSlice bars 56).dropLast).map (·.low)).min? with
          | some prevLow => decide (current.close < prevLow)
          | none => false)
    | "structure.double_top_60.v1" =>
      .ok (evaluateStructureDoubleTop bars 60)
    | "structure.double_bottom_60.v1" =>
      .ok (evaluateStructureDoubleBottom bars 60)
    | "structure.head_and_shoulders_90.v1" =>
      .ok (evaluateStructureHeadAndShoulders bars 90)
    | "structure.inverse_head_and_shoulders_90.v1" =>
      .ok (evaluateStructureInverseHeadAndShoulders bars 90)
    | _ => .error ("Unsupported pattern: " ++ patternId)

/-- `evaluatePattern` from `reasonRuleService.ts`: project klines to
OHLC and dispatch on the pattern id. -/
def evaluatePattern (patternId : String) (klines : List Kline) :
    Except String Bool :=
  evalPatternBars patternId
    (klines.map (fun k => ⟨k.open_, k.high, k.low, k.close⟩))

/-! ## Reason-rule normalization (`reasonRuleService.ts`) -/

/-- `VALID_TIMEFRAMES` of `reasonRuleService.ts` (also the set
`VALID_INTERVALS` of `judgmentValidation.ts`): the supported intervals,
lower-cased. -/
def VALID_TIMEFRAMES : List String := VALID_INTERVALS.map toLowerStr

/-- A canonical `ReasonRule` (`types.ts`). -/
structure ReasonRule where
  timeframe : String
  pattern : String
  direction : String
  horizon_bars : ℤ
  deriving DecidableEq, Repr

/-- The raw `reason_rule` object of a request body.  A field that is
absent or not a string arrives as `""`; `horizon_bars` is `none` when
JS `Number(...)` of the raw value is `NaN`. -/
structure RawReasonRule where
  timeframe : String
  pattern : String
  direction : String
  horizon_bars : Option ℚ
  deriving DecidableEq, Repr

/-- `normalizeReasonRule` from `reasonRuleService.ts`. -/
def normalizeReasonRule (input : Option RawReasonRule)
    (allowedIntervals : Option (List String))
    (expectedDirection : Option String) : Except String ReasonRule :=
  match input with
  | none => .error "Missing reason_rule"
  | some raw =>
    let timeframe := toLowerStr (trimStr raw.timeframe)
    if timeframe = "" ∨ timeframe ∉ VALID_TIMEFRAMES then
      .error "Invalid reason_rule.timeframe"
    else if allowedIntervals.any (fun ai => !(ai.contains timeframe)) then
      .error "reason_rule.timeframe must be included in intervals"
    else
      let pattern := trimStr raw.pattern
      if pattern = "" ∨ pattern ∉ REASON_RULE_PATTERNS then
        .error "Invalid reason_rule.pattern"
      else
        let directionRaw := toUpperStr (trimStr raw.direction)
        if directionRaw ∉ ["UP", "DOWN", "FLAT"] then
          .error "Invalid reason_rule.direction"
        else if expectedDirection.any
            (fun ed => !(ed = "") && !(directionRaw = ed)) then
          .error "reason_rule.direction must match direction"
        else
          match raw.horizon_bars with
          | none => .error "Invalid reason_rule.horizon_bars"
          | some hq =>
            let horizonBars := ⌊hq⌋
            if horizonBars < 1 ∨ 200 < horizonBars then
              .error "Invalid reason_rule.horizon_bars"
            else
              .ok { timeframe := timeframe, pattern := pattern,
                    direction := directionRaw, horizon_bars := horizonBars }

/-! ## Judgment payload validation (`judgmentValidation.ts`) -/

/-- A judgment request body after JSON parsing.  String fields arrive
as `""` when absent or non-string; numeric fields are `none` when
`parseNumber` / `parseTime` of the raw value fails; `intervals` is
given in its array form. -/
structure RawJudgmentPayload where
  round_id : String
  direction : String
  confidence : Option ℚ
  comment : String
  intervals : List String
  analysis_start_time : Option ℤ
  analysis_end_time : Option ℤ
  reason_rule : Option RawReasonRule
  deriving DecidableEq, Repr

structure NormalizedJudgmentPayload where
  round_id : String
  direction : String
  confidence : ℤ
  comment : String
  intervals : List String
  analysis_start_time : ℤ
  analysis_end_time : ℤ
  deriving DecidableEq, Repr

/-- `normalizeIntervals` from `judgmentValidation.ts`: trim, lower-case,
drop empties, require a non-empty whitelisted list. -/
def normalizeIntervals (input : List String) : Except String (List String) :=
  let cleaned := (input.map (fun i => toLowerStr (trimStr i))).filter (fun i => i ≠ "")
  if cleaned = [] then .error "Missing intervals"
  else
    match cleaned.find? (fun i => !(VALID_TIMEFRAMES.contains i)) with
    | some bad => .error ("Invalid interval: " ++ bad)
    | none => .ok cleaned

/-- `normalizeTimeRange` from `judgmentValidation.ts`, on parsed
millisecond values. -/
def normalizeTimeRange (start stop : Option ℤ) : Except String (ℤ × ℤ) :=
  match start, stop with
  | some startMs, some endMs =>
    if endMs ≤ startMs then
      .error "analysis_start_time must be before analysis_end_time"
    else .ok (startMs, endMs)
  | _, _ => .error "Missing analysis time range"

/-- `validateJudgmentPayload` from `judgmentValidation.ts`. -/
def validateJudgmentPayload (payload : Option RawJudgmentPayload) :
    Except String NormalizedJudgmentPayload :=
  match payload with
  | none => .error "Missing round_id"
  | some p =>
    let roundId := trimStr p.round_id
    let direction := toUpperStr p.direction
    let comment := trimStr p.comment
    if roundId = "" then .error "Missing round_id"
    else if direction ∉ ["UP", "DOWN", "FLAT"] then .error "Invalid direction"
    else
      match p.confidence with
      | none => .error "Invalid confidence"
      | some conf =>
        if conf < 0 ∨ 100 < conf then .error "Invalid confidence"
        else if comment = "" ∨ 140 < comment.length then .error "Invalid comment"
        else do
          let intervals ← normalizeIntervals p.intervals
          let timeRange ← normalizeTimeRange p.analysis_start_time
            p.analysis_end_time
          .ok { round_id := roundId, direction := direction,
                confidence := jsRound conf, comment := comment,
                intervals := intervals,
                analysis_start_time := timeRange.1,
                analysis_end_time := timeRange.2 }

/-- Modelled from the spec: step (b) of the judgment submit flow —
"normalize reason_rule with `allowed_intervals=intervals,
expected_direction=direction`".  The submit handler in `src/` expects
`validateJudgmentPayload` to return the normalized `reason_rule`, but
the revision of `judgmentValidation.ts` under `src/` predates the
reason-rule fields, so this glue follows the spec's words; the
`normalizeReasonRule` it calls is embedded from the source above. -/
def validateJudgmentPayloadFull (payload : Option RawJudgmentPayload) :
    Except String (NormalizedJudgmentPayload × ReasonRule) := do
  let p ← validateJudgmentPayload payload
  let rule ← normalizeReasonRule (payload.bind (·.reason_rule))
    (some p.intervals) (some p.direction)
  .ok (p, rule)

/-! ## At-submit reason-rule evaluation (`reasonRuleService.ts`) -/

instance : Inhabited Kline := ⟨⟨0, 0, 0, 0, 0, 0, 0, 0⟩⟩

structure ReasonRuleSubmitEvaluation where
  t_close_ms : ℤ
  target_close_ms : ℤ
  base_close : ℚ
  pattern_holds : Bool
  deriving DecidableEq, Repr

/-- `evaluateReasonRuleOnSubmit` from `reasonRuleService.ts`, with the
kline fetch replaced by its result `klines` (the trailing candle window
ending at the aligned close). -/
def evaluateReasonRuleOnSubmitPure (rule : ReasonRule) (analysisEndMs : ℤ)
    (klines : List Kline) : Except String ReasonRuleSubmitEvaluation := do
  let intervalMs ← intervalToMs rule.timeframe
  let tCloseMs := analysisEndMs.fdiv intervalMs * intervalMs - 1
  let targetCloseMs := tCloseMs + rule.horizon_bars * intervalMs
  let requiredBars ← getPatternRequiredBars rule.pattern
  let closed := stableSortBy (fun a b => decide (a.close_time ≤ b.close_time))
    (klines.filter (fun k => k.close_time ≤ tCloseMs))
  match closed.findIdx? (fun k => k.close_time == tCloseMs) with
  | none => .error "Unable to align analysis_end_time to a closed candle"
  | some tIndex =>
    let baseClose := (closed.getD tIndex default).close
    let upToT := closed.take (tIndex + 1)
    let window := upToT.drop (upToT.length - requiredBars)
    if window.length < requiredBars then
      .error "Insufficient candle history for pattern"
    else do
      let patternHolds ← evaluatePattern rule.pattern window
      .ok { t_close_ms := tCloseMs, target_close_ms := targetCloseMs,
            base_close := baseClose, pattern_holds := patternHolds }

/-! ## The row store and the round lifecycle (`roundService.ts`) -/

structure Agent where
  id : String
  name : String
  persona : String
  status : String
  score : ℤ
  prompt : String
  secret : Option String
  deriving DecidableEq, Repr

/-- A `rounds` row.  The ISO time strings of the store are modelled as
the millisecond values `Date.parse` yields from them. -/
structure Round where
  round_id : String
  symbol : String
  duration_min : ℤ
  start_price : ℚ
  end_price : Option ℚ
  status : String
  start_time : ℤ
  end_time : ℤ
  deriving DecidableEq, Repr

structure Judgment where
  round_id : String
  agent_id : String
  direction : String
  confidence : ℤ
  comment : String
  intervals : List String
  analysis_start_time : ℤ
  analysis_end_time : ℤ
  reason_rule : Option ReasonRule
  reason_t_close_ms : Option ℤ
  reason_target_close_ms : Option ℤ
  reason_base_close : Option ℚ
  reason_pattern_holds : Option Bool
  timestamp : ℤ
  deriving DecidableEq, Repr

structure Verdict where
  round_id : String
  result : String
  delta_pct : ℚ
  timestamp : ℤ
  deriving DecidableEq, Repr

structure ScoreEvent where
  agent_id : String
  round_id : String
  confidence : ℤ
  correct : Bool
  score_change : ℤ
  reason : String
  timestamp : ℤ
  deriving DecidableEq, Repr

/-- A `flip_cards` row; the preformatted `title` / `text` display
strings are not modelled. -/
structure FlipCard where
  agent : String
  agent_id : String
  confidence : ℤ
  result : String
  score_change : ℤ
  round_id : String
  timestamp : ℤ
  deriving DecidableEq, Repr

structure MetaState where
  lastPrice : ℚ
  currentPrice : ℚ
  lastDeltaPct : ℚ
  lastPriceAt : Option ℤ
  deriving DecidableEq, Repr

/-- The `RuntimeConfig` fields the lifecycle uses. -/
structure RuntimeConfig where
  roundDurationMin : ℤ
  roundDurationMs : ℤ
  lockWindowMs : ℤ
  flatThresholdPct : ℚ
  feedLimit : ℕ
  verdictLimit : ℕ
  judgmentLimit : ℕ
  roundLimit : ℕ
  scoreEventLimit : ℕ
  deriving DecidableEq, Repr

/-- The D1 store contents. -/
structure State where
  agents : List Agent
  rounds : List Round
  judgments : List Judgment
  verdicts : List Verdict
  score_events : List ScoreEvent
  flip_cards : List FlipCard
  deriving DecidableEq, Repr

/-- `trimTable` on `rounds`: keep the rows whose `round_id` is among the
top `limit` by `start_time` descending; the `limit <= 0` guard keeps
everything. -/
def trimRounds (rounds : List Round) (limit : ℕ) : List Round :=
  if limit = 0 then rounds
  else
    let kept := ((stableSortBy
        (fun a b => decide (b.start_time ≤ a.start_time)) rounds).take
        limit).map (fun r => r.round_id)
    rounds.filter (fun r => kept.contains r.round_id)

/-- `trimTable` on a timestamp-ordered table: keep the top `limit` rows
by timestamp descending (row identity by implicit rowid is elided — the
kept rows are returned in that order). -/
def trimByTimestamp {α : Type} (ts : α → ℤ) (l : List α) (limit : ℕ) :
    List α :=
  if limit = 0 then l
  else (stableSortBy (fun a b => decide (ts b ≤ ts a)) l).take limit

/-- `getLiveRound`: the most recently started round whose status is not
`settled`. -/
def getLiveRound (s : State) : Option Round :=
  (s.rounds.filter (fun r => r.status ≠ "settled")).foldl
    (fun acc r =>
      match acc with
      | none => some r
      | some b => if b.start_time < r.start_time then some r else some b)
    none

/-- `startRound`: a no-op when a live (non-settled) round exists;
otherwise insert a fresh `betting` round and trim the table.  `newId`
abstracts `roundIdFor(now)` (the UTC date formatting of the id string
is not modelled). -/
def startRound (s : State) (meta : MetaState) (now : ℤ) (newId : String)
    (cfg : RuntimeConfig) : State :=
  match getLiveRound s with
  | some _ => s
  | none =>
    let round : Round :=
      { round_id := newId, symbol := "BTCUSDT",
        duration_min := cfg.roundDurationMin,
        start_price := roundTo2 meta.currentPrice, end_price := none,
        status := "betting", start_time := now,
        end_time := now + cfg.roundDurationMs }
    { s with rounds := trimRounds (s.rounds ++ [round]) cfg.roundLimit }

/-- `lockRound`: `UPDATE rounds SET status = 'locked' WHERE round_id = ?`. -/
def lockRound (s : State) (round : Round) : State :=
  { s with rounds := s.rounds.map (fun r =>
      if r.round_id = round.round_id then { r with status := "locked" }
      else r) }

/-- `cancelRound`: delete the round's judgments and the round row. -/
def cancelRound (s : State) (round : Round) : State :=
  { s with
    judgments := s.judgments.filter (fun j => j.round_id ≠ round.round_id),
    rounds := s.rounds.filter (fun r => r.round_id ≠ round.round_id) }

/-- The settlement scoring rule:
`correct ? confidence : -Math.round(confidence * 1.5)`. -/
def scoreChangeFor (j : Judgment) (result : String) : ℤ :=
  if j.direction = result then j.confidence
  else -(jsRound ((j.confidence : ℚ) * (3/2)))

/-- The verdict `settleRound` constructs. -/
def settleVerdict (round : Round) (meta : MetaState) (cfg : RuntimeConfig)
    (ts : ℤ) : Verdict :=
  let endPrice := roundTo2 meta.currentPrice
  let deltaPct := (endPrice - round.start_price) / round.start_price * 100
  { round_id := round.round_id,
    result := computeResult deltaPct cfg.flatThresholdPct,
    delta_pct := roundTo1 deltaPct, timestamp := ts }

/-- The judgments of the round paired with their agents; a judgment
whose agent is missing from `agents` is skipped (`continue`). -/
def settleEntries (s : State) (round : Round) : List (Judgment × Agent) :=
  (s.judgments.filter (fun j => j.round_id == round.round_id)).filterMap
    (fun j => (s.agents.find? (fun a => a.id == j.agent_id)).map
      (fun a => (j, a)))

def mkScoreEvent (j : Judgment) (a : Agent) (v : Verdict) : ScoreEvent :=
  { agent_id := a.id, round_id := v.round_id, confidence := j.confidence,
    correct := j.direction == v.result,
    score_change := scoreChangeFor j v.result,
    reason := if j.direction == v.result then "Correct"
      else "High confidence failure",
    timestamp := v.timestamp }

/-- `buildFlipCard` (display strings elided). -/
def buildFlipCard (a : Agent) (j : Judgment) (v : Verdict)
    (scoreChange : ℤ) : FlipCard :=
  { agent := a.name, agent_id := a.id, confidence := j.confidence,
    result := if j.direction == v.result then "WIN" else "FAIL",
    score_change := scoreChange, round_id := v.round_id,
    timestamp := v.timestamp }

/-- `UPDATE agents SET score = score + ? WHERE id = ?`. -/
def updAgentScore (agents : List Agent) (aid : String) (delta : ℤ) :
    List Agent :=
  agents.map (fun a =>
    if a.id = aid then { a with score := a.score + delta } else a)

/-- The atomic batch of `settleRound`: idempotence guard, round update,
verdict insert, and one score event / score update / flip card per
judgment whose agent exists. -/
def settleRoundBatch (s : State) (round : Round) (meta : MetaState)
    (cfg : RuntimeConfig) (ts : ℤ) : State :=
  if round.status = "settled" then s
  else
    let v := settleVerdict round meta cfg ts
    let entries := settleEntries s round
    let endPrice := roundTo2 meta.currentPrice
    { s with
      rounds := s.rounds.map (fun r =>
        if r.round_id = round.round_id then
          { r with end_price := some endPrice, status := "settled" }
        else r),
      verdicts := s.verdicts ++ [v],
      agents := entries.foldl (fun ags e =>
        updAgentScore ags e.2.id (scoreChangeFor e.1 v.result)) s.agents,
      score_events := s.score_events ++
        entries.map (fun e => mkScoreEvent e.1 e.2 v),
      flip_cards := s.flip_cards ++
        entries.map (fun e => buildFlipCard e.2 e.1 v
          (scoreChangeFor e.1 v.result)) }

/-- `settleRound`: the batch followed by the retention trims. -/
def settleRound (s : State) (round : Round) (meta : MetaState)
    (cfg : RuntimeConfig) (ts : ℤ) : State :=
  let s2 := settleRoundBatch s round meta cfg ts
  { s2 with
    verdicts := trimByTimestamp (·.timestamp) s2.verdicts cfg.verdictLimit,
    score_events := trimByTimestamp (·.timestamp) s2.score_events
      cfg.scoreEventLimit,
    flip_cards := trimByTimestamp (·.timestamp) s2.flip_cards cfg.feedLimit }

/-! ## The judgment submit handler (`/api/v1/judgments`) -/

structure SubmitResponse where
  t_close_ms : ℤ
  target_close_ms : ℤ
  pattern_holds : Bool
  deriving DecidableEq, Repr

/-- `handleSubmitJudgment`: validate, load the round, require `betting`
before the lock time, evaluate the reason rule at submit, then in one
batch delete the prior `(round, agent)` row and insert the new row, and
trim.  Every throw happens before the batch; the embedding returns the
unchanged state next to the error in those cases.  `klines` stands for
the candle window `fetchKlines` returns. -/
def handleSubmitJudgment (s : State) (cfg : RuntimeConfig)
    (agentId : String) (payload : Option RawJudgmentPayload) (now : ℤ)
    (klines : List Kline) : State × Except String SubmitResponse :=
  match validateJudgmentPayloadFull payload with
  | .error e => (s, .error e)
  | .ok (p, rule) =>
    match s.rounds.find? (fun r => r.round_id == p.round_id) with
    | none => (s, .error "Round not found")
    | some round =>
      if round.status ≠ "betting" then
        (s, .error "Round not accepting submissions")
      else if round.start_time + cfg.lockWindowMs ≤ now then
        (s, .error "Round locked")
      else
        match evaluateReasonRuleOnSubmitPure rule p.analysis_end_time
            klines with
        | .error e => (s, .error e)
        | .ok ev =>
          let newJudgment : Judgment :=
            { round_id := p.round_id, agent_id := agentId,
              direction := p.direction, confidence := p.confidence,
              comment := p.comment, intervals := p.intervals,
              analysis_start_time := p.analysis_start_time,
              analysis_end_time := p.analysis_end_time,
              reason_rule := some rule,
              reason_t_close_ms := some ev.t_close_ms,
              reason_target_close_ms := some ev.target_close_ms,
              reason_base_close := some ev.base_close,
              reason_pattern_holds := some ev.pattern_holds,
              timestamp := now }
          let kept := s.judgments.filter (fun j =>
            !(j.round_id == p.round_id && j.agent_id == agentId))
          let judgments2 := trimByTimestamp (fun j => j.timestamp)
            (kept ++ [newJudgment]) cfg.judgmentLimit
          ({ s with judgments := judgments2 },
           .ok { t_close_ms := ev.t_close_ms,
                 target_close_ms := ev.target_close_ms,
                 pattern_holds := ev.pattern_holds })

/-! ## Seeding and reachability -/

/-- `DEFAULT_AGENTS` from `agents.ts` (seed score 1000 each). -/
def DEFAULT_AGENTS : List Agent :=
  [{ id := "bull_v1", name := "BullClaw", persona := "只判上涨，绝不改口",
     status := "active", score := 1000,
     prompt := "You are BullClaw. You must ALWAYS choose UP/DOWN/FLAT. You are overconfident and always bullish.",
     secret := none },
   { id := "bear_v1", name := "BearClaw", persona := "只判下跌，冷酷定罪",
     status := "active", score := 1000,
     prompt := "You are BearClaw. You must ALWAYS choose UP/DOWN/FLAT. You are overconfident and always bearish.",
     secret := none },
   { id := "chaos_v1", name := "ChaosClaw", persona := "无理由站队，情绪裁决",
     status := "active", score := 1000,
     prompt := "You are ChaosClaw. You must ALWAYS choose UP/DOWN/FLAT. You are moody and unpredictable.",
     secret := none }]

/-- The store after `seedAgents` runs on an empty database: the three
default agents and nothing else. -/
def initState : State :=
  { agents := DEFAULT_AGENTS, rounds := [], judgments := [],
    verdicts := [], score_events := [], flip_cards := [] }

/-- One observable store transition of the service. -/
inductive Step (cfg : RuntimeConfig) : State → State → Prop
  | start (s : State) (meta : MetaState) (now : ℤ) (newId : String) :
    Step cfg s (startRound s meta now newId cfg)
  | lock (s : State) (round : Round) : Step cfg s (lockRound s round)
  | cancel (s : State) (round : Round) : Step cfg s (cancelRound s round)
  | settle (s : State) (round : Round) (meta : MetaState) (ts : ℤ) :
    Step cfg s (settleRound s round meta cfg ts)
  | submit (s : State) (agentId : String)
      (payload : Option RawJudgmentPayload) (now : ℤ)
      (klines : List Kline) :
    Step cfg s (handleSubmitJudgment s cfg agentId payload now klines).1

/-- States the service can reach from the freshly seeded store. -/
def Reachable (cfg : RuntimeConfig) (s : State) : Prop :=
  Relation.ReflTransGen (Step cfg) initState s

/-- The total `score_change` of the stored score events of one agent. -/
def sumScoreEvents (events : List ScoreEvent) (aid : String) : ℤ :=
  ((events.filter (fun e => e.agent_id == aid)).map (·.score_change)).sum

/-- At most one round is live (status other than `settled`). -/
def AtMostOneLive (s : State) : Prop :=
  (s.rounds.countP (fun r => r.status ≠ "settled")) ≤ 1

instance (s : State) : Decidable (AtMostOneLive s) := by
  unfold AtMostOneLive
  infer_instance

/-- The default runtime configuration (`config.ts` defaults). -/
def DEFAULT_CONFIG : RuntimeConfig :=
  { roundDurationMin := 30, roundDurationMs := 1800000,
    lockWindowMs := 600000, flatThresholdPct := 1/5, feedLimit := 200,
    verdictLimit := 200, judgmentLimit := 800, roundLimit := 200,
    scoreEventLimit := 1000 }

/-! ## Helper lemmas -/

lemma exceptBind_ok {ε α β : Type} (a : α) (f : α → Except ε β) :
    (Except.ok a >>= f) = f a := rfl

lemma exceptBind_error {ε α β : Type} (e : ε) (f : α → Except ε β) :
    ((Except.error e : Except ε α) >>= f) = .error e := rfl

/-- Inversion of a successful `Except` bind. -/
lemma bind_eq_ok {ε α β : Type} {e : Except ε α} {f : α → Except ε β}
    {b : β} (h : (e >>= f) = .ok b) : ∃ a, e = .ok a ∧ f a = .ok b := by
  cases e with
  | error x => exact Except.noConfusion h
  | ok a => exact ⟨a, rfl, h⟩

/-- If the at-submit evaluation succeeds, its aligned close and target
close are the floor-alignment and the horizon offset from it. -/
lemma evalOnSubmit_ok_times {rule : ReasonRule} {ms : ℤ}
    {klines : List Kline} {ev : ReasonRuleSubmitEvaluation} {i : ℤ}
    (hi : intervalToMs rule.timeframe = .ok i)
    (heval : evaluateReasonRuleOnSubmitPure rule ms klines = .ok ev) :
    ev.t_close_ms = ms.fdiv i * i - 1 ∧
    ev.target_close_ms = ms.fdiv i * i - 1 + rule.horizon_bars * i := by
  unfold evaluateReasonRuleOnSubmitPure at heval
  rw [hi, exceptBind_ok] at heval
  obtain ⟨req, hreq, heval⟩ := bind_eq_ok heval
  simp only [] at heval
  split at heval
  · exact Except.noConfusion heval
  · split at heval
    · exact Except.noConfusion heval
    · obtain ⟨holds, hpat, heval⟩ := bind_eq_ok heval
      cases heval
      exact ⟨rfl, rfl⟩

/-- Evaluate `atRel` at a resolved nonnegative index. -/
lemma atRel_eq_getElem (bars : List Ohlc) (rel : ℤ) (j : ℕ)
    (hj : (bars.length : ℤ) - 1 + rel = (j : ℤ)) :
    atRel bars rel = bars[j]? := by
  unfold atRel
  simp only [hj]
  rw [if_neg (by omega)]
  simp

/-- `atRel` offsets 0 / -1 / -2 on a list ending in three known bars. -/
lemma atRel_append3 (l : List Ohlc) (x y z : Ohlc) :
    atRel (l ++ [x, y, z]) 0 = some z ∧
    atRel (l ++ [x, y, z]) (-1) = some y ∧
    atRel (l ++ [x, y, z]) (-2) = some x := by
  refine ⟨?_, ?_, ?_⟩
  · rw [atRel_eq_getElem _ _ (l.length + 2) (by simp; ring)]
    rw [List.getElem?_append_right (by omega)]
    simp
  · rw [atRel_eq_getElem _ _ (l.length + 1) (by simp; ring)]
    rw [List.getElem?_append_right (by omega)]
    simp
  · rw [atRel_eq_getElem _ _ l.length (by simp; ring)]
    rw [List.getElem?_append_right (by omega)]
    simp

/-- `atRel` at an offset that resolves below index 0 reads nothing. -/
lemma atRel_neg (bars : List Ohlc) (rel : ℤ)
    (h : (bars.length : ℤ) - 1 + rel < 0) : atRel bars rel = none := by
  unfold atRel
  rw [if_pos h]

/-- A non-empty bar list always has a current bar. -/
lemma atRel_zero_of_ne_nil {bars : List Ohlc} (h : bars ≠ []) :
    ∃ cur, atRel bars 0 = some cur := by
  unfold atRel
  have hlen : 0 < bars.length := List.length_pos.mpr h
  rw [if_neg (by omega)]
  have hidx : ((bars.length : ℤ) - 1 + 0).toNat < bars.length := by omega
  exact ⟨_, List.getElem?_eq_getElem hidx⟩

lemma optAt_replicate (n : ℕ) (i : ℤ) :
    optAt (List.replicate n (none : Option ℚ)) i = none := by
  unfold optAt
  split
  · rfl
  · rw [List.getD_eq_getElem?_getD, List.getElem?_replicate]
    split <;> rfl

lemma computeEma_short {closes : List ℚ} {period : ℕ}
    (h : closes.length < period) :
    computeEma closes period = List.replicate closes.length none := by
  unfold computeEma
  rw [if_pos h]

lemma computeRsi_short {closes : List ℚ} {period : ℕ}
    (h : closes.length ≤ period) :
    computeRsi closes period = List.replicate closes.length none := by
  unfold computeRsi
  rw [if_pos h]

lemma emaFrom_length (alpha prev : ℚ) (l : List ℚ) :
    (emaFrom alpha prev l).length = l.length := by
  induction l generalizing prev with
  | nil => rfl
  | cons c rest ih => simp [emaFrom, ih]


lemma optAt_computeEma_short {closes : List ℚ} {period : ℕ}
    (h : closes.length < period) (i : ℤ) :
    optAt (computeEma closes period) i = none := by
  rw [computeEma_short h, optAt_replicate]

lemma emaPatternHolds_short {p : String} {bars : List Ohlc}
    (h : bars.length < 50) : emaPatternHolds p bars = false := by
  unfold emaPatternHolds
  have h50 : optAt (computeEma (bars.map (fun x => x.close)) 50)
      ((bars.length : ℤ) - 1) = none :=
    optAt_computeEma_short (by simpa using h) _
  simp only [List.length_map]
  cases h20 : optAt (computeEma (bars.map (fun x => x.close)) 20)
      ((bars.length : ℤ) - 1) with
  | none => simp [h20, h50]
  | some e20 => simp [h20, h50]

lemma optAt_computeEma_none_of_lt {closes : List ℚ} {period j : ℕ}
    (hlen : period ≤ closes.length) (hj : j < period - 1) :
    optAt (computeEma closes period) (j : ℤ) = none := by
  unfold computeEma optAt
  rw [if_neg (not_lt.mpr hlen), if_neg (by omega)]
  rw [List.getD_eq_getElem?_getD]
  have hto : ((j : ℤ)).toNat = j := Int.toNat_natCast j
  rw [hto]
  simp only []
  rw [List.getElem?_append_left (by simp only [List.length_append,
    List.length_replicate, List.length_map, List.length_singleton]; omega)]
  rw [List.getElem?_append_left (by simp only [List.length_replicate]; omega)]
  rw [List.getElem?_replicate, if_pos hj]
  rfl

lemma optAt_computeEma_isSome {closes : List ℚ} {period j : ℕ}
    (hp : 0 < period) (hlen : period ≤ closes.length)
    (hj1 : period - 1 ≤ j) (hj2 : j < closes.length) :
    ∃ v, optAt (computeEma closes period) (j : ℤ) = some v := by
  unfold computeEma optAt
  rw [if_neg (not_lt.mpr hlen), if_neg (by omega)]
  rw [List.getD_eq_getElem?_getD]
  have hto : ((j : ℤ)).toNat = j := Int.toNat_natCast j
  rw [hto]
  simp only []
  by_cases hcase : j < period
  · have hje : j = period - 1 := by omega
    subst hje
    rw [List.getElem?_append_left (by simp only [List.length_append,
      List.length_replicate, List.length_map, List.length_singleton]; omega)]
    rw [List.getElem?_append_right (by simp only [List.length_replicate]; omega)]
    simp
  · rw [List.getElem?_append_right (by simp only [List.length_append,
      List.length_replicate, List.length_map, List.length_singleton]; omega)]
    simp only [List.length_append, List.length_replicate,
      List.length_singleton, List.getElem?_map]
    have hk : j - (period - 1 + 1) < (emaFrom (2 / ((period : ℚ) + 1))
        ((closes.take period).sum / (period : ℚ))
        (closes.drop period)).length := by
      rw [emaFrom_length]
      simp only [List.length_drop]
      omega
    rw [List.getElem?_eq_getElem hk]
    exact ⟨_, rfl⟩

lemma emaCross_at50 {p : String} {bars : List Ohlc} (hlen : bars.length = 50)
    (hp : p = "indicator.ema20_cross_up_ema50.v1" ∨
      p = "indicator.ema20_cross_down_ema50.v1") :
    emaPatternHolds p bars = false := by
  unfold emaPatternHolds
  have hclen : (bars.map (fun x => x.close)).length = 50 := by simp [hlen]
  obtain ⟨v20, hv20⟩ := @optAt_computeEma_isSome
    (bars.map (fun x => x.close)) 20 49
    (by norm_num) (by omega) (by norm_num) (by omega)
  obtain ⟨v50, hv50⟩ := @optAt_computeEma_isSome
    (bars.map (fun x => x.close)) 50 49
    (by norm_num) (by omega) (by norm_num) (by omega)
  have h48 : optAt (computeEma (bars.map (fun x => x.close)) 50)
      ((48 : ℕ) : ℤ) = none :=
    optAt_computeEma_none_of_lt (by omega) (by norm_num)
  push_cast at hv20 hv50 h48
  simp only [List.length_map, hlen]
  push_cast
  rw [hv20, hv50]
  cases h20p : optAt (computeEma (bars.map (fun x => x.close)) 20)
      (48 : ℤ) with
  | none => rcases hp with rfl | rfl <;> simp [h20p, h48]
  | some v => rcases hp with rfl | rfl <;> simp [h20p, h48]

lemma rsiPatternHolds_short {p : String} {bars : List Ohlc}
    (h : bars.length < 15) : rsiPatternHolds p bars = false := by
  unfold rsiPatternHolds
  have h14 : optAt (computeRsi (bars.map (fun x => x.close)) 14)
      ((bars.length : ℤ) - 1) = none := by
    rw [computeRsi_short (by simpa using (show bars.length ≤ 14 by omega)),
      optAt_replicate]
  simp only [List.length_map]
  simp [h14]

lemma evalPatternBars_nil (p : String) : evalPatternBars p [] = .ok false := rfl

lemma evalPatternBars_isOk (p : String) (hp : p ∈ REASON_RULE_PATTERNS)
    (bars : List Ohlc) : (evalPatternBars p bars).isOk = true := by
  unfold evalPatternBars
  split
  · rfl
  · fin_cases hp <;> rfl

lemma evalPatternBars_unknown (p : String) (hp : p ∉ REASON_RULE_PATTERNS)
    (bars : List Ohlc) (h : bars ≠ []) :
    evalPatternBars p bars = .error ("Unsupported pattern: " ++ p) := by
  obtain ⟨cur, hcur⟩ := atRel_zero_of_ne_nil h
  unfold evalPatternBars
  rw [hcur]
  split <;> first | rfl | simp_all [REASON_RULE_PATTERNS]

lemma evalPatternBars_short (p : String) (hp : p ∈ REASON_RULE_PATTERNS)
    (hns : p ∉ ["structure.double_top_60.v1", "structure.double_bottom_60.v1",
      "structure.head_and_shoulders_90.v1",
      "structure.inverse_head_and_shoulders_90.v1"])
    (n : ℕ) (hreq : getPatternRequiredBars p = .ok n)
    (bars : List Ohlc) (hlen : bars.length < n) :
    evalPatternBars p bars = .ok false := by
  by_cases hnil : bars = []
  · subst hnil; exact evalPatternBars_nil p
  obtain ⟨cur, hcur⟩ := atRel_zero_of_ne_nil hnil
  fin_cases hp
  · have hn : n = 2 := by simpa [getPatternRequiredBars] using hreq.symm
    subst hn
    rcases bars with _ | ⟨x, _ | ⟨y, rest⟩⟩
    · rfl
    · rfl
    · simp only [List.length_cons] at hlen; omega
  · have hn : n = 2 := by simpa [getPatternRequiredBars] using hreq.symm
    subst hn
    rcases bars with _ | ⟨x, _ | ⟨y, rest⟩⟩
    · rfl
    · rfl
    · simp only [List.length_cons] at hlen; omega
  · have hn : n = 1 := by simpa [getPatternRequiredBars] using hreq.symm
    subst hn
    interval_cases h : bars.length
    · exact absurd (List.eq_nil_of_length_eq_zero h) hnil
  · have hn : n = 1 := by simpa [getPatternRequiredBars] using hreq.symm
    subst hn
    interval_cases h : bars.length
    · exact absurd (List.eq_nil_of_length_eq_zero h) hnil
  · have hn : n = 1 := by simpa [getPatternRequiredBars] using hreq.symm
    subst hn
    interval_cases h : bars.length
    · exact absurd (List.eq_nil_of_length_eq_zero h) hnil
  · have hn : n = 2 := by simpa [getPatternRequiredBars] using hreq.symm
    subst hn
    rcases bars with _ | ⟨x, _ | ⟨y, rest⟩⟩
    · rfl
    · rfl
    · simp only [List.length_cons] at hlen; omega
  · have hn : n = 2 := by simpa [getPatternRequiredBars] using hreq.symm
    subst hn
    rcases bars with _ | ⟨x, _ | ⟨y, rest⟩⟩
    · rfl
    · rfl
    · simp only [List.length_cons] at hlen; omega
  · have hn : n = 3 := by simpa [getPatternRequiredBars] using hreq.symm
    subst hn
    rcases bars with _ | ⟨x, _ | ⟨y, _ | ⟨z, rest⟩⟩⟩
    · rfl
    · rfl
    · rfl
    · simp only [List.length_cons] at hlen; omega
  · have hn : n = 3 := by simpa [getPatternRequiredBars] using hreq.symm
    subst hn
    rcases bars with _ | ⟨x, _ | ⟨y, _ | ⟨z, rest⟩⟩⟩
    · rfl
    · rfl
    · rfl
    · simp only [List.length_cons] at hlen; omega
  · have hn : n = 3 := by simpa [getPatternRequiredBars] using hreq.symm
    subst hn
    rcases bars with _ | ⟨x, _ | ⟨y, _ | ⟨z, rest⟩⟩⟩
    · rfl
    · rfl
    · rfl
    · simp only [List.length_cons] at hlen; omega
  · have hn : n = 3 := by simpa [getPatternRequiredBars] using hreq.symm
    subst hn
    rcases bars with _ | ⟨x, _ | ⟨y, _ | ⟨z, rest⟩⟩⟩
    · rfl
    · rfl
    · rfl
    · simp only [List.length_cons] at hlen; omega
  · have hn : n = 50 := by simpa [getPatternRequiredBars] using hreq.symm
    subst hn
    unfold evalPatternBars
    rw [hcur]
    simp [emaPatternHolds_short hlen]
  · have hn : n = 50 := by simpa [getPatternRequiredBars] using hreq.symm
    subst hn
    unfold evalPatternBars
    rw [hcur]
    simp [emaPatternHolds_short hlen]
  · have hn : n = 51 := by simpa [getPatternRequiredBars] using hreq.symm
    subst hn
    unfold evalPatternBars
    rw [hcur]
    by_cases h50 : bars.length < 50
    · simp [emaPatternHolds_short h50]
    · have hl : bars.length = 50 := by omega
      simp [emaCross_at50 hl (Or.inl rfl)]
  · have hn : n = 51 := by simpa [getPatternRequiredBars] using hreq.symm
    subst hn
    unfold evalPatternBars
    rw [hcur]
    by_cases h50 : bars.length < 50
    · simp [emaPatternHolds_short h50]
    · have hl : bars.length = 50 := by omega
      simp [emaCross_at50 hl (Or.inr rfl)]
  · have hn : n = 15 := by simpa [getPatternRequiredBars] using hreq.symm
    subst hn
    unfold evalPatternBars
    rw [hcur]
    simp [rsiPatternHolds_short hlen]
  · have hn : n = 15 := by simpa [getPatternRequiredBars] using hreq.symm
    subst hn
    unfold evalPatternBars
    rw [hcur]
    simp [rsiPatternHolds_short hlen]
  · have hn : n = 21 := by simpa [getPatternRequiredBars] using hreq.symm
    subst hn
    unfold evalPatternBars
    rw [hcur]
    simp [hlen]
  · have hn : n = 21 := by simpa [getPatternRequiredBars] using hreq.symm
    subst hn
    unfold evalPatternBars
    rw [hcur]
    simp [hlen]
  · have hn : n = 56 := by simpa [getPatternRequiredBars] using hreq.symm
    subst hn
    unfold evalPatternBars
    rw [hcur]
    simp [hlen]
  · have hn : n = 56 := by simpa [getPatternRequiredBars] using hreq.symm
    subst hn
    unfold evalPatternBars
    rw [hcur]
    simp [hlen]
  · simp at hns
  · simp at hns
  · simp at hns
  · simp at hns

/-! ## Claim theorems -/

/-- Claim C7: for every base close ≠ 0 and target close, `deltaPct` is
`(target - base) / base * 100`, the outcome is FLAT exactly when
`|deltaPct| < flat_threshold_pct`, otherwise UP exactly when
`deltaPct > 0` and DOWN exactly when `deltaPct < 0`, and the round
verdict rule `computeResult` agrees with `computeOutcome`. -/
theorem C7_flat_threshold_outcome (baseClose targetClose thr deltaPct : ℚ)
    (hbase : baseClose ≠ 0) (hthr : 0 < thr)
    (hdelta : deltaPct = (targetClose - baseClose) / baseClose * 100) :
    (computeOutcome baseClose targetClose thr).2 = deltaPct ∧
    ((computeOutcome baseClose targetClose thr).1 = "FLAT" ↔
      |deltaPct| < thr) ∧
    (¬ |deltaPct| < thr →
      (((computeOutcome baseClose targetClose thr).1 = "UP" ↔
          0 < deltaPct) ∧
       ((computeOutcome baseClose targetClose thr).1 = "DOWN" ↔
          deltaPct < 0))) ∧
    computeResult deltaPct thr = (computeOutcome baseClose targetClose thr).1 := by
  subst hdelta
  unfold computeOutcome computeResult
  by_cases hflat : |(targetClose - baseClose) / baseClose * 100| < thr
  · rw [if_pos hflat, if_pos hflat]
    exact ⟨rfl, by simp [hflat], fun h => absurd hflat h, rfl⟩
  · have hne : (targetClose - baseClose) / baseClose * 100 ≠ 0 := by
      intro h0
      rw [h0] at hflat
      simp only [abs_zero] at hflat
      exact absurd hthr hflat
    rw [if_neg hflat, if_neg hflat]
    by_cases hup : (targetClose - baseClose) / baseClose * 100 > 0
    · rw [if_pos hup]
      refine ⟨rfl, by simp [hflat], fun _ => ⟨by simp [hup], ?_⟩, rfl⟩
      have : ¬ (targetClose - baseClose) / baseClose * 100 < 0 := by linarith
      simp [this]
    · have hdown : (targetClose - baseClose) / baseClose * 100 < 0 :=
        lt_of_le_of_ne (not_lt.mp hup) hne
      rw [if_neg hup]
      refine ⟨rfl, by simp [hflat], fun _ => ⟨by simp [hup], by simp [hdown]⟩, rfl⟩

/-- Witness for C7 at the submit-flow example `base 100`, `target
100.1`, threshold `0.2`. -/
theorem C7_flat_threshold_outcome_witness :
    ((100 : ℚ) ≠ 0 ∧ (0 : ℚ) < 1/5 ∧
      (1/10 : ℚ) = (1001/10 - 100) / 100 * 100) ∧
    ((computeOutcome 100 (1001/10) (1/5)).2 = 1/10 ∧
     ((computeOutcome 100 (1001/10) (1/5)).1 = "FLAT" ↔
        |(1/10 : ℚ)| < 1/5) ∧
     (¬ |(1/10 : ℚ)| < 1/5 →
       (((computeOutcome 100 (1001/10) (1/5)).1 = "UP" ↔
          (0 : ℚ) < 1/10) ∧
        ((computeOutcome 100 (1001/10) (1/5)).1 = "DOWN" ↔
          (1/10 : ℚ) < 0))) ∧
     computeResult (1/10) (1/5) = (computeOutcome 100 (1001/10) (1/5)).1) :=
  ⟨⟨by norm_num, by norm_num, by norm_num⟩,
   C7_flat_threshold_outcome 100 (1001/10) (1/5) (1/10)
     (by norm_num) (by norm_num) (by norm_num)⟩

/-- A raw candle that lacks the upstream close timestamp `T`. -/
def candleNoCloseTs : HyperliquidCandle :=
  { t := 0, T := none, o := 1, h := 2, l := 0, c := 1, v := 5, n := none }

/-- A raw candle carrying the inclusive close timestamp
`T = t + 60000 - 1`. -/
def candleInclusiveTs : HyperliquidCandle :=
  { t := 0, T := some 59999, o := 1, h := 2, l := 0, c := 1, v := 5,
    n := some 4 }

/-- Claim C9 counterexample: a candle without an upstream close
timestamp `T` is normalized to `close_time = open_time + intervalMs`,
not `open_time + intervalMs - 1`. -/
theorem C9_counterexample :
    ∃ k : Kline,
      normalizeKlines [candleNoCloseTs] 60000 = [k] ∧
      k.open_time = 0 ∧ k.close_time = 60000 ∧
      k.close_time ≠ k.open_time + 60000 - 1 := by
  refine ⟨_, rfl, rfl, rfl, by decide⟩

/-- Claim C9 (amended): when every upstream candle carries the
inclusive close timestamp `T = t + intervalMs - 1` (as the Hyperliquid
source does), every normalized bar satisfies
`close_time = open_time + intervalMs - 1`; a candle without `T` instead
gets `close_time = open_time + intervalMs`. -/
theorem C9_close_time_inclusive (candles : List HyperliquidCandle)
    (intervalMs : ℤ)
    (hT : ∀ c ∈ candles, c.T = some (c.t + intervalMs - 1)) :
    ∀ k ∈ normalizeKlines candles intervalMs,
      k.close_time = k.open_time + intervalMs - 1 := by
  intro k hk
  simp only [normalizeKlines, List.mem_map] at hk
  obtain ⟨c, hc, rfl⟩ := hk
  simp [hT c hc]

/-- Witness for C9 (amended) on a concrete inclusive-close candle. -/
theorem C9_close_time_inclusive_witness :
    (∀ c ∈ [candleInclusiveTs], c.T = some (c.t + 60000 - 1)) ∧
    (∀ k ∈ normalizeKlines [candleInclusiveTs] 60000,
      k.close_time = k.open_time + 60000 - 1) :=
  ⟨by decide, C9_close_time_inclusive _ 60000 (by decide)⟩

/-- Claim C6: for every `analysis_end_time_ms` and whitelisted
timeframe, the aligned inclusive close is
`floor(ms / intervalMs) * intervalMs - 1`, `(aligned + 1)` is a
multiple of `intervalMs`, and for every horizon `H ∈ [1, 200]` the
at-submit evaluation's target close is `aligned + H * intervalMs`. -/
theorem C6_alignment (tf : String) (htf : tf ∈ VALID_INTERVALS)
    (ms : ℤ) (H : ℤ) (hH : 1 ≤ H ∧ H ≤ 200) :
    ∃ intervalMs : ℤ, intervalToMs tf = .ok intervalMs ∧ 0 < intervalMs ∧
      alignCloseTimeMs ms tf = .ok (ms.fdiv intervalMs * intervalMs - 1) ∧
      (ms.fdiv intervalMs * intervalMs - 1 + 1) % intervalMs = 0 ∧
      ∀ (pat dir : String) (klines : List Kline)
        (ev : ReasonRuleSubmitEvaluation),
        evaluateReasonRuleOnSubmitPure
          { timeframe := tf, pattern := pat, direction := dir,
            horizon_bars := H } ms klines = .ok ev →
        ev.t_close_ms = ms.fdiv intervalMs * intervalMs - 1 ∧
        ev.target_close_ms = ms.fdiv intervalMs * intervalMs - 1 +
          H * intervalMs := by
  have key : ∀ i : ℤ, intervalToMs tf = .ok i → 0 < i →
      ∃ intervalMs : ℤ, intervalToMs tf = .ok intervalMs ∧
        0 < intervalMs ∧
        alignCloseTimeMs ms tf = .ok (ms.fdiv intervalMs * intervalMs - 1) ∧
        (ms.fdiv intervalMs * intervalMs - 1 + 1) % intervalMs = 0 ∧
        ∀ (pat dir : String) (klines : List Kline)
          (ev : ReasonRuleSubmitEvaluation),
          evaluateReasonRuleOnSubmitPure
            { timeframe := tf, pattern := pat, direction := dir,
              horizon_bars := H } ms klines = .ok ev →
          ev.t_close_ms = ms.fdiv intervalMs * intervalMs - 1 ∧
          ev.target_close_ms = ms.fdiv intervalMs * intervalMs - 1 +
            H * intervalMs := by
    intro i hi hpos
    refine ⟨i, hi, hpos, ?_, ?_, ?_⟩
    · unfold alignCloseTimeMs
      rw [hi]
      rfl
    · rw [sub_add_cancel, Int.mul_emod_left]
    · intro pat dir klines ev heval
      exact evalOnSubmit_ok_times hi heval
  fin_cases htf
  · exact key 60000 rfl (by norm_num)
  · exact key 180000 rfl (by norm_num)
  · exact key 300000 rfl (by norm_num)
  · exact key 900000 rfl (by norm_num)
  · exact key 1800000 rfl (by norm_num)
  · exact key 3600000 rfl (by norm_num)
  · exact key 14400000 rfl (by norm_num)
  · exact key 43200000 rfl (by norm_num)
  · exact key 86400000 rfl (by norm_num)

/-- Witness for C6 at the documented example: timeframe `1m`,
`analysis_end_time = 2026-02-04T00:01:30Z` (1770163290000 ms). -/
theorem C6_alignment_witness :
    ("1m" ∈ VALID_INTERVALS ∧ (1 : ℤ) ≤ 3 ∧ (3 : ℤ) ≤ 200) ∧
    ∃ intervalMs : ℤ, intervalToMs "1m" = .ok intervalMs ∧
      0 < intervalMs ∧
      alignCloseTimeMs 1770163290000 "1m" =
        .ok ((1770163290000 : ℤ).fdiv intervalMs * intervalMs - 1) ∧
      ((1770163290000 : ℤ).fdiv intervalMs * intervalMs - 1 + 1) %
        intervalMs = 0 ∧
      ∀ (pat dir : String) (klines : List Kline)
        (ev : ReasonRuleSubmitEvaluation),
        evaluateReasonRuleOnSubmitPure
          { timeframe := "1m", pattern := pat, direction := dir,
            horizon_bars := 3 } 1770163290000 klines = .ok ev →
        ev.t_close_ms = (1770163290000 : ℤ).fdiv intervalMs * intervalMs - 1 ∧
        ev.target_close_ms = (1770163290000 : ℤ).fdiv intervalMs *
          intervalMs - 1 + 3 * intervalMs :=
  ⟨⟨by decide, by decide, by decide⟩,
   C6_alignment "1m" (by decide) 1770163290000 3 ⟨by decide, by decide⟩⟩

lemma atRel_append1 (l : List Ohlc) (x : Ohlc) :
    atRel (l ++ [x]) 0 = some x := by
  rw [atRel_eq_getElem _ _ l.length (by simp)]
  rw [List.getElem?_append_right (by omega)]
  simp

/-- Claim C10, stated per pattern: each range-dividing candle pattern
guards `r ≤ 0` before dividing.  Hammer, shooting star and doji return
`ok false` on every window — of any length, including their 1-bar
required window — whose last bar is degenerate (`high ≤ low`); morning
star and evening star return `ok false` on every window (of at least
three bars, so that the relevant bars exist) whose bar at offset -2 or
-1 is degenerate, with no condition on the current bar.  In no case is
an error raised or a division by a zero range reached. -/
theorem C10_degenerate_bar_safe :
    (∀ (front : List Kline) (lastBar : Kline),
      lastBar.high ≤ lastBar.low →
      evaluatePattern "candle.hammer.v1" (front ++ [lastBar]) =
        .ok false ∧
      evaluatePattern "candle.shooting_star.v1" (front ++ [lastBar]) =
        .ok false ∧
      evaluatePattern "candle.doji.v1" (front ++ [lastBar]) =
        .ok false) ∧
    (∀ (front : List Kline) (b2 b1 cur : Kline),
      b2.high ≤ b2.low ∨ b1.high ≤ b1.low →
      evaluatePattern "candle.morning_star.v1"
        (front ++ [b2, b1, cur]) = .ok false ∧
      evaluatePattern "candle.evening_star.v1"
        (front ++ [b2, b1, cur]) = .ok false) := by
  constructor
  · intro front lastBar hlast
    have hmap : (front ++ [lastBar]).map
        (fun k => (⟨k.open_, k.high, k.low, k.close⟩ : Ohlc)) =
        front.map (fun k => (⟨k.open_, k.high, k.low, k.close⟩ : Ohlc)) ++
        [⟨lastBar.open_, lastBar.high, lastBar.low, lastBar.close⟩] := by
      simp
    have h0 := atRel_append1
      (front.map (fun k => (⟨k.open_, k.high, k.low, k.close⟩ : Ohlc)))
      ⟨lastBar.open_, lastBar.high, lastBar.low, lastBar.close⟩
    have hrc : range
        ⟨lastBar.open_, lastBar.high, lastBar.low, lastBar.close⟩ ≤ 0 := by
      simp only [range]
      exact sub_nonpos.mpr hlast
    unfold evaluatePattern
    rw [hmap]
    refine ⟨?_, ?_, ?_⟩ <;>
      · unfold evalPatternBars
        simp only [h0]
        rw [if_pos hrc]
  · intro front b2 b1 cur hdeg
    have hmap : (front ++ [b2, b1, cur]).map
        (fun k => (⟨k.open_, k.high, k.low, k.close⟩ : Ohlc)) =
        front.map (fun k => (⟨k.open_, k.high, k.low, k.close⟩ : Ohlc)) ++
        [⟨b2.open_, b2.high, b2.low, b2.close⟩,
         ⟨b1.open_, b1.high, b1.low, b1.close⟩,
         ⟨cur.open_, cur.high, cur.low, cur.close⟩] := by
      simp
    obtain ⟨h0, h1, h2⟩ := atRel_append3
      (front.map (fun k => (⟨k.open_, k.high, k.low, k.close⟩ : Ohlc)))
      ⟨b2.open_, b2.high, b2.low, b2.close⟩
      ⟨b1.open_, b1.high, b1.low, b1.close⟩
      ⟨cur.open_, cur.high, cur.low, cur.close⟩
    have hor : range ⟨b2.open_, b2.high, b2.low, b2.close⟩ ≤ 0 ∨
        range ⟨b1.open_, b1.high, b1.low, b1.close⟩ ≤ 0 := by
      rcases hdeg with h | h
      · exact Or.inl (by simp only [range]; exact sub_nonpos.mpr h)
      · exact Or.inr (by simp only [range]; exact sub_nonpos.mpr h)
    unfold evaluatePattern
    rw [hmap]
    refine ⟨?_, ?_⟩ <;>
      · unfold evalPatternBars
        simp only [h0, h1, h2]
        rw [if_pos hor]

/-- A degenerate bar (`high ≤ low`) used to witness C10. -/
def degenerateKline : Kline :=
  { open_time := 0, close_time := 0, open_ := 5, high := 3, low := 4,
    close := 5, volume := 0, trades_count := 0 }

/-- A non-degenerate bar used beside the degenerate one. -/
def plainKline : Kline :=
  { open_time := 0, close_time := 0, open_ := 1, high := 2, low := 1,
    close := 1, volume := 0, trades_count := 0 }

/-- Witness for C10: the single-bar patterns on their 1-bar required
window holding one degenerate bar, and the stars on 3-bar windows
where only the -2 (resp. only the -1) bar is degenerate. -/
theorem C10_degenerate_bar_safe_witness :
    (degenerateKline.high ≤ degenerateKline.low ∧
     evaluatePattern "candle.hammer.v1" [degenerateKline] = .ok false ∧
     evaluatePattern "candle.shooting_star.v1" [degenerateKline] =
       .ok false ∧
     evaluatePattern "candle.doji.v1" [degenerateKline] = .ok false) ∧
    (evaluatePattern "candle.morning_star.v1"
       [degenerateKline, plainKline, plainKline] = .ok false ∧
     evaluatePattern "candle.evening_star.v1"
       [plainKline, degenerateKline, plainKline] = .ok false) :=
  ⟨⟨by decide, C10_degenerate_bar_safe.1 [] degenerateKline (by decide)⟩,
   ⟨(C10_degenerate_bar_safe.2 [] degenerateKline plainKline plainKline
       (Or.inl (by decide))).1,
    (C10_degenerate_bar_safe.2 [] plainKline degenerateKline plainKline
       (Or.inr (by decide))).2⟩⟩

/-- Concrete test bar for counterexamples and witnesses. -/
def kq (o h l c : ℚ) : Kline :=
  { open_time := 0, close_time := 0, open_ := o, high := h, low := l,
    close := c, volume := 0, trades_count := 0 }

/-- Ten bars forming a completed double top (pivot highs at indices 2
and 7, neckline 90, confirming close 80). -/
def shortDoubleTopBars : List Kline :=
  [kq 95 99 90 95, kq 95 99 90 95, kq 95 100 90 95, kq 93 95 90 93,
   kq 92 94 90 92, kq 92 94 90 92, kq 93 95 90 93, kq 95 100 90 95,
   kq 95 99 90 95, kq 85 99 80 80]

/-- Claim C8 counterexample: `evaluatePattern` can return `true` for a
structure pattern on far fewer bars than its required minimum (64), so
"insufficient bars ⇒ false" fails; and an unknown pattern id with an
empty bar list returns `ok false` rather than raising, so "error
exactly when the id is outside the whitelist" fails too. -/
theorem C8_counterexample :
    evaluatePattern "structure.double_top_60.v1" shortDoubleTopBars =
      .ok true ∧
    shortDoubleTopBars.length = 10 ∧
    getPatternRequiredBars "structure.double_top_60.v1" = .ok 64 ∧
    (10 : ℕ) < 64 ∧
    evaluatePattern "pattern.unknown.v1" [] = .ok false ∧
    "pattern.unknown.v1" ∉ REASON_RULE_PATTERNS :=
  ⟨rfl, rfl, rfl, by norm_num, rfl, by decide⟩

/-- Claim C8 (amended): `evaluatePattern` is deterministic; on a
whitelisted pattern it never raises; for the candle, indicator and
breakout patterns, fewer bars than the required minimum yields
`ok false`; an unknown pattern raises exactly when the bar list is
non-empty (an empty list yields `ok false` for every id, and structure
patterns may evaluate — possibly to `true` — on windows shorter than
their required minimum; the submit pipeline checks the minimum before
calling the evaluator). -/
theorem C8_pattern_evaluator_totality :
    (∀ (p : String) (k1 k2 : List Kline), k1 = k2 →
      evaluatePattern p k1 = evaluatePattern p k2) ∧
    (∀ p ∈ REASON_RULE_PATTERNS, ∀ klines : List Kline,
      (evaluatePattern p klines).isOk = true) ∧
    (∀ p ∈ REASON_RULE_PATTERNS,
      p ∉ ["structure.double_top_60.v1", "structure.double_bottom_60.v1",
        "structure.head_and_shoulders_90.v1",
        "structure.inverse_head_and_shoulders_90.v1"] →
      ∀ (n : ℕ), getPatternRequiredBars p = .ok n →
      ∀ klines : List Kline, klines.length < n →
      evaluatePattern p klines = .ok false) ∧
    (∀ (p : String), p ∉ REASON_RULE_PATTERNS → ∀ klines : List Kline,
      klines ≠ [] →
      evaluatePattern p klines = .error ("Unsupported pattern: " ++ p)) ∧
    (∀ p : String, evaluatePattern p [] = .ok false) := by
  refine ⟨?_, ?_, ?_, ?_, ?_⟩
  · intro p k1 k2 h
    rw [h]
  · intro p hp klines
    exact evalPatternBars_isOk p hp _
  · intro p hp hns n hreq klines hlen
    exact evalPatternBars_short p hp hns n hreq _ (by simpa using hlen)
  · intro p hp klines hne
    refine evalPatternBars_unknown p hp _ ?_
    simpa using hne
  · intro p
    rfl

/-- Witness for C8 (amended), exercising each clause on concrete
inputs. -/
theorem C8_pattern_evaluator_totality_witness :
    evaluatePattern "candle.doji.v1" ([] : List Kline) = .ok false ∧
    (evaluatePattern "indicator.rsi14_lt_30.v1" [kq 1 2 1 1]).isOk = true ∧
    evaluatePattern "indicator.rsi14_lt_30.v1" [kq 1 2 1 1] = .ok false ∧
    evaluatePattern "pattern.unknown.v1" [kq 1 2 1 1] =
      .error ("Unsupported pattern: " ++ "pattern.unknown.v1") :=
  ⟨C8_pattern_evaluator_totality.2.2.2.2 "candle.doji.v1",
   C8_pattern_evaluator_totality.2.1 "indicator.rsi14_lt_30.v1"
     (by decide) _,
   C8_pattern_evaluator_totality.2.2.1 "indicator.rsi14_lt_30.v1"
     (by decide) (by decide) 15 rfl [kq 1 2 1 1] (by decide),
   C8_pattern_evaluator_totality.2.2.2.1 "pattern.unknown.v1" (by decide)
     [kq 1 2 1 1] (by decide)⟩



lemma liveFold_some_ne_none (l : List Round) (b : Round) :
    l.foldl (fun acc r =>
      match acc with
      | none => some r
      | some b2 => if b2.start_time < r.start_time then some r else some b2)
      (some b) ≠ none := by
  induction l generalizing b with
  | nil => simp
  | cons r t ih =>
    simp only [List.foldl_cons]
    split <;> apply ih

lemma getLiveRound_none {s : State} (h : getLiveRound s = none) :
    s.rounds.filter (fun r => r.status ≠ "settled") = [] := by
  unfold getLiveRound at h
  cases hf : s.rounds.filter (fun r => r.status ≠ "settled") with
  | nil => rfl
  | cons r t =>
    rw [hf] at h
    simp only [List.foldl_cons] at h
    exact absurd h (liveFold_some_ne_none t r)

lemma getLiveRound_some {s : State} (r : Round) (hr : r ∈ s.rounds)
    (hst : r.status ≠ "settled") : getLiveRound s ≠ none := by
  intro h
  have := getLiveRound_none h
  have hmem : r ∈ s.rounds.filter (fun x => x.status ≠ "settled") := by
    rw [List.mem_filter]
    exact ⟨hr, by simpa using hst⟩
  rw [this] at hmem
  exact absurd hmem (List.not_mem_nil r)

/-- `trimTable` on rounds only ever deletes rows. -/
lemma trimRounds_sublist (rounds : List Round) (limit : ℕ) :
    (trimRounds rounds limit).Sublist rounds := by
  unfold trimRounds
  split
  · exact List.Sublist.refl _
  · exact List.filter_sublist _

/-- Claim C3: at most one non-settled round is preserved by every
round-lifecycle operation: `startRound` is a no-op when a live round
exists (and otherwise inserts a single betting round into a store with
none), and `lockRound` (applied to the live round, whose `round_id`
matches no settled row), `cancelRound` and `settleRound` never create
an additional non-settled round. -/
theorem C3_at_most_one_live (s : State) (cfg : RuntimeConfig)
    (hs : AtMostOneLive s) :
    (∀ (meta : MetaState) (now : ℤ) (newId : String),
      AtMostOneLive (startRound s meta now newId cfg)) ∧
    ((∃ r ∈ s.rounds, r.status ≠ "settled") →
      ∀ (meta : MetaState) (now : ℤ) (newId : String),
        startRound s meta now newId cfg = s) ∧
    (∀ round : Round,
      (∀ r ∈ s.rounds, r.round_id = round.round_id →
        r.status ≠ "settled") →
      AtMostOneLive (lockRound s round)) ∧
    (∀ round : Round, AtMostOneLive (cancelRound s round)) ∧
    (∀ (round : Round) (meta : MetaState) (ts : ℤ),
      AtMostOneLive (settleRound s round meta cfg ts)) := by
  refine ⟨?_, ?_, ?_, ?_, ?_⟩
  · intro meta now newId
    unfold startRound
    cases hlive : getLiveRound s with
    | some r => exact hs
    | none =>
      have hflt : s.rounds.filter (fun r => r.status ≠ "settled") = [] :=
        getLiveRound_none hlive
      have hcount : s.rounds.countP (fun r => r.status ≠ "settled") = 0 := by
        rw [List.countP_eq_length_filter, hflt]
        rfl
      unfold AtMostOneLive
      simp only []
      refine le_trans
        (List.Sublist.countP_le _ (trimRounds_sublist _ _)) ?_
      rw [List.countP_append, hcount]
      simp [List.countP_cons]
  · rintro ⟨r, hr, hst⟩ meta now newId
    unfold startRound
    cases hlive : getLiveRound s with
    | some r2 => simp only [hlive]
    | none => exact absurd hlive (getLiveRound_some r hr hst)
  · intro round hids
    unfold lockRound AtMostOneLive
    simp only [List.countP_map]
    rw [List.countP_congr ?_]
    · exact hs
    · intro r hr
      simp only [Function.comp_apply]
      by_cases hid : r.round_id = round.round_id
      · simp [hid, hids r hr hid]
      · simp [hid]
  · intro round
    unfold cancelRound AtMostOneLive
    exact le_trans (List.Sublist.countP_le _ (List.filter_sublist _)) hs
  · intro round meta ts
    unfold settleRound AtMostOneLive
    simp only []
    unfold settleRoundBatch
    split
    · exact hs
    · simp only [List.countP_map]
      refine le_trans (List.countP_mono_left ?_) hs
      intro r hr hpr
      simp only [Function.comp_apply] at hpr
      by_cases hid : r.round_id = round.round_id
      · simp [hid] at hpr
      · simpa [hid] using hpr



/-- Claim C4: a judgment submission targeting a round that is not in
`betting`, or made at `now ≥ start_time + lock_window_ms`, fails with
an error and leaves the store (in particular the judgments table)
unchanged. -/
theorem C4_locked_submission_rejected (s : State) (cfg : RuntimeConfig)
    (agentId : String) (payload : Option RawJudgmentPayload) (now : ℤ)
    (klines : List Kline) (p : NormalizedJudgmentPayload)
    (rule : ReasonRule) (round : Round)
    (hval : validateJudgmentPayloadFull payload = .ok (p, rule))
    (hfind : s.rounds.find? (fun r => r.round_id == p.round_id) =
      some round)
    (hcond : round.status ≠ "betting" ∨
      round.start_time + cfg.lockWindowMs ≤ now) :
    (handleSubmitJudgment s cfg agentId payload now klines).1 = s ∧
    ∃ e, (handleSubmitJudgment s cfg agentId payload now klines).2 =
      .error e := by
  unfold handleSubmitJudgment
  simp only [hval, hfind]
  rcases hcond with hstat | htime
  · rw [if_pos hstat]
    exact ⟨rfl, _, rfl⟩
  · by_cases hstat : round.status ≠ "betting"
    · rw [if_pos hstat]
      exact ⟨rfl, _, rfl⟩
    · rw [if_neg hstat, if_pos htime]
      exact ⟨rfl, _, rfl⟩

def rule0 : ReasonRule :=
  { timeframe := "1m", pattern := "candle.doji.v1", direction := "UP",
    horizon_bars := 3 }

def rawRule0 : RawReasonRule :=
  { timeframe := "1m", pattern := "candle.doji.v1", direction := "UP",
    horizon_bars := some 3 }

def payload0 : RawJudgmentPayload :=
  { round_id := "r_1", direction := "UP", confidence := some 80,
    comment := "test", intervals := ["1m"], analysis_start_time := some 0,
    analysis_end_time := some 120000, reason_rule := some rawRule0 }

def p0 : NormalizedJudgmentPayload :=
  { round_id := "r_1", direction := "UP", confidence := 80,
    comment := "test", intervals := ["1m"], analysis_start_time := 0,
    analysis_end_time := 120000 }

def lockedRound : Round :=
  { round_id := "r_1", symbol := "BTCUSDT", duration_min := 30,
    start_price := 100, end_price := none, status := "locked",
    start_time := 0, end_time := 1800000 }

def lockedState : State :=
  { agents := DEFAULT_AGENTS, rounds := [lockedRound], judgments := [],
    verdicts := [], score_events := [], flip_cards := [] }

/-- Witness for C4: submitting to a locked round leaves the store
unchanged and errors. -/
theorem C4_locked_submission_rejected_witness :
    (validateJudgmentPayloadFull (some payload0) = .ok (p0, rule0) ∧
     lockedState.rounds.find? (fun r => r.round_id == p0.round_id) =
       some lockedRound ∧
     lockedRound.status ≠ "betting") ∧
    ((handleSubmitJudgment lockedState DEFAULT_CONFIG "bull_v1"
        (some payload0) 0 []).1 = lockedState ∧
     ∃ e, (handleSubmitJudgment lockedState DEFAULT_CONFIG "bull_v1"
        (some payload0) 0 []).2 = .error e) :=
  ⟨⟨rfl, by decide, by decide⟩,
   C4_locked_submission_rejected lockedState DEFAULT_CONFIG "bull_v1"
     (some payload0) 0 [] p0 rule0 lockedRound rfl (by decide)
     (Or.inl (by decide))⟩

def meta0 : MetaState :=
  { lastPrice := 42000, currentPrice := 42000, lastDeltaPct := 0,
    lastPriceAt := none }

def bettingRound : Round :=
  { round_id := "r_1", symbol := "BTCUSDT", duration_min := 30,
    start_price := 100, end_price := none, status := "betting",
    start_time := 0, end_time := 1800000 }

def bettingState : State :=
  { agents := DEFAULT_AGENTS, rounds := [bettingRound], judgments := [],
    verdicts := [], score_events := [], flip_cards := [] }

/-- Witness for C3 on a store holding one betting round. -/
theorem C3_at_most_one_live_witness :
    (AtMostOneLive bettingState ∧
     (∃ r ∈ bettingState.rounds, r.status ≠ "settled") ∧
     (∀ r ∈ bettingState.rounds, r.round_id = bettingRound.round_id →
        r.status ≠ "settled")) ∧
    (AtMostOneLive (startRound bettingState meta0 0 "r_2" DEFAULT_CONFIG) ∧
     startRound bettingState meta0 0 "r_2" DEFAULT_CONFIG = bettingState ∧
     AtMostOneLive (lockRound bettingState bettingRound) ∧
     AtMostOneLive (cancelRound bettingState bettingRound) ∧
     AtMostOneLive
       (settleRound bettingState bettingRound meta0 DEFAULT_CONFIG 5)) :=
  have h := C3_at_most_one_live bettingState DEFAULT_CONFIG (by decide)
  ⟨⟨by decide, ⟨bettingRound, by decide, by decide⟩, by decide⟩,
   ⟨h.1 meta0 0 "r_2",
    h.2.1 ⟨bettingRound, by decide, by decide⟩ meta0 0 "r_2",
    h.2.2.1 bettingRound (by decide),
    h.2.2.2.1 bettingRound,
    h.2.2.2.2 bettingRound meta0 5⟩⟩


lemma nrr_fail_timeframe {raw : RawReasonRule} {ai : List String}
    {ed : Option String}
    (h : toLowerStr (trimStr raw.timeframe) ∉ ai) :
    (normalizeReasonRule (some raw) (some ai) ed).isOk = false := by
  unfold normalizeReasonRule
  simp only []
  by_cases h1 : toLowerStr (trimStr raw.timeframe) = "" ∨
      toLowerStr (trimStr raw.timeframe) ∉ VALID_TIMEFRAMES
  · rw [if_pos h1]
    rfl
  · rw [if_neg h1, if_pos (by simp [Option.any, h])]
    rfl

lemma nrr_fail_pattern {raw : RawReasonRule} {ai : Option (List String)}
    {ed : Option String}
    (h : trimStr raw.pattern ∉ REASON_RULE_PATTERNS) :
    (normalizeReasonRule (some raw) ai ed).isOk = false := by
  unfold normalizeReasonRule
  simp only []
  split
  · rfl
  · split
    · rfl
    · rw [if_pos (Or.inr h)]
      rfl

lemma nrr_fail_direction {raw : RawReasonRule} {ai : Option (List String)}
    {ed : String} (hed : ed ∈ ["UP", "DOWN", "FLAT"])
    (h : toUpperStr (trimStr raw.direction) ≠ ed) :
    (normalizeReasonRule (some raw) ai (some ed)).isOk = false := by
  have hed' : ed ≠ "" := by fin_cases hed <;> decide
  unfold normalizeReasonRule
  simp only []
  split
  · rfl
  · split
    · rfl
    · split
      · rfl
      · split
        · rfl
        · rw [if_pos (by simp [Option.any, hed', h])]
          rfl

lemma nrr_fail_horizon {raw : RawReasonRule} {ai : Option (List String)}
    {ed : Option String}
    (h : ∀ q, raw.horizon_bars = some q → (⌊q⌋ < 1 ∨ 200 < ⌊q⌋)) :
    (normalizeReasonRule (some raw) ai ed).isOk = false := by
  unfold normalizeReasonRule
  simp only []
  split
  · rfl
  · split
    · rfl
    · split
      · rfl
      · split
        · rfl
        · split
          · rfl
          · cases hq : raw.horizon_bars with
            | none => rfl
            | some q =>
              simp only []
              rw [if_pos (h q hq)]
              rfl



def evalKline0 : Kline :=
  { open_time := 60000, close_time := 119999, open_ := 10, high := 11,
    low := 9, close := 201/20, volume := 0, trades_count := 0 }

def rawRuleHalf : RawReasonRule :=
  { timeframe := "1m", pattern := "candle.doji.v1", direction := "UP",
    horizon_bars := some (7/2) }

def payloadHalf : RawJudgmentPayload :=
  { payload0 with reason_rule := some rawRuleHalf }

def rawRuleBadPat : RawReasonRule :=
  { rawRule0 with pattern := "nope" }

def rawRuleBadHz : RawReasonRule :=
  { rawRule0 with horizon_bars := some 300 }

/-- Counterexample to C5's horizon clause: a reason_rule whose
horizon_bars is 7/2 — not an integer in [1,200] — is accepted (the code
floors it to 3) rather than rejected. -/
theorem C5_counterexample :
    validateJudgmentPayloadFull (some payloadHalf) = .ok (p0, rule0) ∧
    ¬∃ n : ℤ, ((7 : ℚ) / 2 = (n : ℚ) ∧ 1 ≤ n ∧ n ≤ 200) := by
  refine ⟨rfl, ?_⟩
  rintro ⟨n, hn, -, -⟩
  have h7 : (7 : ℚ) = 2 * (n : ℚ) := by
    field_simp at hn
    linarith
  have h7i : (7 : ℤ) = 2 * n := by exact_mod_cast h7
  omega

/-- Claim C5 (amended): the submit flow normalizes reason_rule with
allowed_intervals = the validated intervals and expected_direction = the
validated direction; normalization fails when the timeframe is outside
the allowed intervals, the pattern is outside the whitelist, the
direction differs from the expected one, or the FLOOR of horizon_bars
falls outside [1,200] (a non-integer horizon whose floor lands in range
is accepted); on success the submit handler stores the normalized rule
in the inserted judgment row. -/
theorem C5_reason_rule_normalization :
    (∀ (payload : RawJudgmentPayload) (p : NormalizedJudgmentPayload),
      validateJudgmentPayload (some payload) = .ok p →
      validateJudgmentPayloadFull (some payload) =
        (normalizeReasonRule payload.reason_rule (some p.intervals)
          (some p.direction)).map (fun rule => (p, rule))) ∧
    (∀ (raw : RawReasonRule) (ai : List String) (ed : Option String),
      toLowerStr (trimStr raw.timeframe) ∉ ai →
      (normalizeReasonRule (some raw) (some ai) ed).isOk = false) ∧
    (∀ (raw : RawReasonRule) (ai : Option (List String))
       (ed : Option String),
      trimStr raw.pattern ∉ REASON_RULE_PATTERNS →
      (normalizeReasonRule (some raw) ai ed).isOk = false) ∧
    (∀ (raw : RawReasonRule) (ai : Option (List String)) (ed : String),
      ed ∈ ["UP", "DOWN", "FLAT"] →
      toUpperStr (trimStr raw.direction) ≠ ed →
      (normalizeReasonRule (some raw) ai (some ed)).isOk = false) ∧
    (∀ (raw : RawReasonRule) (ai : Option (List String))
       (ed : Option String),
      (∀ q, raw.horizon_bars = some q → (⌊q⌋ < 1 ∨ 200 < ⌊q⌋)) →
      (normalizeReasonRule (some raw) ai ed).isOk = false) ∧
    (∀ (s : State) (cfg : RuntimeConfig) (agentId : String)
       (payload : RawJudgmentPayload) (p : NormalizedJudgmentPayload)
       (rule : ReasonRule) (now : ℤ) (klines : List Kline)
       (resp : SubmitResponse),
      validateJudgmentPayloadFull (some payload) = .ok (p, rule) →
      (handleSubmitJudgment s cfg agentId (some payload) now
        klines).2 = .ok resp →
      ∃ ev, evaluateReasonRuleOnSubmitPure rule p.analysis_end_time
          klines = .ok ev ∧
        (handleSubmitJudgment s cfg agentId (some payload) now
          klines).1.judgments =
        trimByTimestamp (fun j => j.timestamp)
          (s.judgments.filter (fun j =>
            !(j.round_id == p.round_id && j.agent_id == agentId)) ++
           [{ round_id := p.round_id, agent_id := agentId,
              direction := p.direction, confidence := p.confidence,
              comment := p.comment, intervals := p.intervals,
              analysis_start_time := p.analysis_start_time,
              analysis_end_time := p.analysis_end_time,
              reason_rule := some rule,
              reason_t_close_ms := some ev.t_close_ms,
              reason_target_close_ms := some ev.target_close_ms,
              reason_base_close := some ev.base_close,
              reason_pattern_holds := some ev.pattern_holds,
              timestamp := now }]) cfg.judgmentLimit) := by
  refine ⟨?_, fun raw ai ed h => nrr_fail_timeframe h,
    fun raw ai ed h => nrr_fail_pattern h,
    fun raw ai ed hed h => nrr_fail_direction hed h,
    fun raw ai ed h => nrr_fail_horizon h, ?_⟩
  · intro payload p hval
    unfold validateJudgmentPayloadFull
    simp only [hval]
    rw [exceptBind_ok]
    show (normalizeReasonRule payload.reason_rule (some p.intervals)
      (some p.direction) >>= fun rule => Except.ok (p, rule)) = _
    cases normalizeReasonRule payload.reason_rule (some p.intervals)
      (some p.direction) <;> rfl
  · intro s cfg agentId payload p rule now klines resp hval hok
    unfold handleSubmitJudgment at hok ⊢
    simp only [hval] at hok ⊢
    cases hfind : s.rounds.find? (fun r => r.round_id == p.round_id) with
    | none =>
      rw [hfind] at hok
      simp at hok
    | some round =>
      rw [hfind] at hok
      simp only [] at hok ⊢
      by_cases hstat : round.status ≠ "betting"
      · rw [if_pos hstat] at hok
        simp at hok
      · rw [if_neg hstat] at hok ⊢
        by_cases hlock : round.start_time + cfg.lockWindowMs ≤ now
        · rw [if_pos hlock] at hok
          simp at hok
        · rw [if_neg hlock] at hok ⊢
          cases hev : evaluateReasonRuleOnSubmitPure rule
              p.analysis_end_time klines with
          | error e =>
            rw [hev] at hok
            simp at hok
          | ok ev =>
            exact ⟨ev, rfl, rfl⟩

def resp0 : SubmitResponse :=
  { t_close_ms := 119999, target_close_ms := 299999, pattern_holds := true }

/-- Witness for C5 at concrete inputs: payload0 normalizes through the
rule; each of the four rejection conditions fires on a concrete bad
rule; and a full submit against the betting round stores rule0. -/
theorem C5_reason_rule_normalization_witness :
    validateJudgmentPayloadFull (some payload0) =
      (normalizeReasonRule payload0.reason_rule (some p0.intervals)
        (some p0.direction)).map (fun rule => (p0, rule)) ∧
    (normalizeReasonRule (some rawRule0) (some ["5m"]) none).isOk = false ∧
    (normalizeReasonRule (some rawRuleBadPat) none none).isOk = false ∧
    (normalizeReasonRule (some rawRule0) none (some "DOWN")).isOk = false ∧
    (normalizeReasonRule (some rawRuleBadHz) none none).isOk = false ∧
    (∃ ev, evaluateReasonRuleOnSubmitPure rule0 p0.analysis_end_time
        [evalKline0] = .ok ev ∧
      (handleSubmitJudgment bettingState DEFAULT_CONFIG "bull_v1"
        (some payload0) 0 [evalKline0]).1.judgments =
      trimByTimestamp (fun j => j.timestamp)
        (bettingState.judgments.filter (fun j =>
          !(j.round_id == p0.round_id && j.agent_id == "bull_v1")) ++
         [{ round_id := p0.round_id, agent_id := "bull_v1",
            direction := p0.direction, confidence := p0.confidence,
            comment := p0.comment, intervals := p0.intervals,
            analysis_start_time := p0.analysis_start_time,
            analysis_end_time := p0.analysis_end_time,
            reason_rule := some rule0,
            reason_t_close_ms := some ev.t_close_ms,
            reason_target_close_ms := some ev.target_close_ms,
            reason_base_close := some ev.base_close,
            reason_pattern_holds := some ev.pattern_holds,
            timestamp := 0 }]) DEFAULT_CONFIG.judgmentLimit) :=
  ⟨C5_reason_rule_normalization.1 payload0 p0 rfl,
   C5_reason_rule_normalization.2.1 rawRule0 ["5m"] none (by decide),
   C5_reason_rule_normalization.2.2.1 rawRuleBadPat none none (by decide),
   C5_reason_rule_normalization.2.2.2.1 rawRule0 none "DOWN" (by decide)
     (by decide),
   C5_reason_rule_normalization.2.2.2.2.1 rawRuleBadHz none none (by
     intro q hq
     simp only [rawRuleBadHz, rawRule0] at hq
     cases hq
     decide),
   C5_reason_rule_normalization.2.2.2.2.2 bettingState DEFAULT_CONFIG
     "bull_v1" payload0 p0 rule0 0 [evalKline0] resp0 rfl rfl⟩

def sumDeltas (entries : List (Judgment × Agent)) (result : String)
    (aid : String) : ℤ :=
  ((entries.filter (fun e => e.2.id == aid)).map
    (fun e => scoreChangeFor e.1 result)).sum

lemma foldl_updAgentScore (result : String) :
    ∀ (entries : List (Judgment × Agent)) (agents : List Agent),
    entries.foldl (fun ags e =>
        updAgentScore ags e.2.id (scoreChangeFor e.1 result)) agents =
    agents.map (fun a =>
      { a with score := a.score + sumDeltas entries result a.id }) := by
  intro entries
  induction entries with
  | nil =>
    intro agents
    have hfn : (fun a : Agent =>
        { a with score := a.score + sumDeltas [] result a.id }) =
        fun a => a := by
      funext a
      simp [sumDeltas]
    rw [List.foldl_nil, hfn, List.map_id']
  | cons e t ih =>
    intro agents
    rw [List.foldl_cons, ih]
    unfold updAgentScore
    rw [List.map_map]
    refine List.map_congr_left (fun a _ => ?_)
    simp only [Function.comp_apply]
    by_cases h : a.id = e.2.id
    · rw [if_pos h]
      simp [sumDeltas, List.filter_cons, h, add_assoc]
    · rw [if_neg h]
      have h2 : (e.2.id == a.id) = false := by
        simp [Ne.symm h]
      simp [sumDeltas, List.filter_cons, h2]

lemma filterMap_agents_filter (agents : List Agent) (aid : String)
    (a : Agent) (hfind : agents.find? (fun x => x.id == aid) = some a) :
    ∀ (jl : List Judgment) (rid : String),
    ((jl.filter (fun x => x.round_id == rid)).filterMap
        (fun x => (agents.find? (fun y => y.id == x.agent_id)).map
          (fun y => (x, y)))).filter (fun e => e.2.id == aid) =
    (jl.filter (fun x => x.round_id == rid && x.agent_id == aid)).map
      (fun x => (x, a)) := by
  have haid : (a.id == aid) = true := by
    have := List.find?_some hfind
    simpa using this
  intro jl rid
  induction jl with
  | nil => rfl
  | cons x t ih =>
    by_cases hr : x.round_id = rid
    · by_cases ha : x.agent_id = aid
      · simp [List.filter_cons, List.filterMap_cons, hr, ha, hfind,
          haid, ih]
      · cases hf : agents.find? (fun y => y.id == x.agent_id) with
        | none =>
          simp [List.filter_cons, List.filterMap_cons, hr, ha, hf, ih]
        | some y =>
          have hy : (y.id == x.agent_id) = true := by
            have := List.find?_some hf
            simpa using this
          have hyaid : (y.id == aid) = false := by
            have hyx : y.id = x.agent_id := by simpa using hy
            simp [hyx, ha]
          simp [List.filter_cons, List.filterMap_cons, hr, ha, hf,
            hyaid, ih]
    · simp [List.filter_cons, hr, ih]

lemma find?_map_score (p : String) (f : Agent → ℤ) :
    ∀ agents : List Agent,
    (agents.map (fun a => { a with score := f a })).find?
      (fun x => x.id == p) =
    (agents.find? (fun x => x.id == p)).map
      (fun a => { a with score := f a }) := by
  intro agents
  induction agents with
  | nil => rfl
  | cons a t ih =>
    by_cases h : (a.id == p) = true
    · simp [List.find?_cons, h]
    · simp [List.find?_cons, h, ih]

/-- Claim C1: settling a non-settled round writes, for the judgment of
each agent present in `agents`, exactly one score event for the
(judgment, verdict) pair — with `correct = (direction == result)` and
`score_change = confidence` when correct and `-round(confidence*1.5)`
otherwise — and increments that agent's score by exactly that
score_change. -/
theorem C1_settlement_scoring (s : State) (round : Round)
    (meta : MetaState) (cfg : RuntimeConfig) (ts : ℤ) (v : Verdict)
    (j : Judgment) (a : Agent)
    (hstat : round.status ≠ "settled")
    (hv : settleVerdict round meta cfg ts = v)
    (hfind : s.agents.find? (fun x => x.id == j.agent_id) = some a)
    (hone : s.judgments.filter (fun x =>
        x.round_id == round.round_id && x.agent_id == j.agent_id) = [j]) :
    (settleRoundBatch s round meta cfg ts).score_events.filter
        (fun ev => ev.agent_id == j.agent_id) =
      s.score_events.filter (fun ev => ev.agent_id == j.agent_id) ++
      [{ agent_id := a.id, round_id := v.round_id,
         confidence := j.confidence,
         correct := (j.direction == v.result),
         score_change := if j.direction = v.result then j.confidence
           else -(jsRound ((j.confidence : ℚ) * (3/2))),
         reason := if j.direction == v.result then "Correct"
           else "High confidence failure",
         timestamp := v.timestamp }] ∧
    (settleRoundBatch s round meta cfg ts).agents.find?
        (fun x => x.id == j.agent_id) =
      some { a with score := a.score +
        (if j.direction = v.result then j.confidence
         else -(jsRound ((j.confidence : ℚ) * (3/2)))) } := by
  subst hv
  have ha : (a.id == j.agent_id) = true := by
    have := List.find?_some hfind
    simpa using this
  have haid : a.id = j.agent_id := by simpa using ha
  have hent : (settleEntries s round).filter
      (fun e => e.2.id == j.agent_id) = [(j, a)] := by
    unfold settleEntries
    rw [filterMap_agents_filter s.agents j.agent_id a hfind s.judgments
      round.round_id, hone]
    rfl
  unfold settleRoundBatch
  rw [if_neg hstat]
  simp only []
  constructor
  · rw [List.filter_append]
    congr 1
    rw [List.filter_map]
    have hpred : ((fun ev => ev.agent_id == j.agent_id) ∘
        (fun e : Judgment × Agent =>
          mkScoreEvent e.1 e.2 (settleVerdict round meta cfg ts))) =
        fun e : Judgment × Agent => e.2.id == j.agent_id := rfl
    rw [hpred, hent]
    rfl
  · rw [foldl_updAgentScore, find?_map_score, hfind]
    have hsum : sumDeltas (settleEntries s round)
        (settleVerdict round meta cfg ts).result a.id =
        scoreChangeFor j (settleVerdict round meta cfg ts).result := by
      unfold sumDeltas
      rw [haid, hent]
      simp
    simp only [Option.map_some']
    rw [hsum]
    rfl

def judgment0 : Judgment :=
  { round_id := "r_1", agent_id := "bull_v1", direction := "UP",
    confidence := 80, comment := "test", intervals := ["1m"],
    analysis_start_time := 0, analysis_end_time := 120000,
    reason_rule := some rule0, reason_t_close_ms := some 119999,
    reason_target_close_ms := some 299999,
    reason_base_close := some (201/20), reason_pattern_holds := some true,
    timestamp := 0 }

def agentBull : Agent :=
  { id := "bull_v1", name := "BullClaw", persona := "只判上涨，绝不改口",
    status := "active", score := 1000,
    prompt := "You are BullClaw. You must ALWAYS choose UP/DOWN/FLAT. You are overconfident and always bullish.",
    secret := none }

def settleState0 : State :=
  { agents := DEFAULT_AGENTS, rounds := [bettingRound],
    judgments := [judgment0], verdicts := [], score_events := [],
    flip_cards := [] }

def verdict0 : Verdict := settleVerdict bettingRound meta0 DEFAULT_CONFIG 5

/-- Witness for C1: settling the betting round with one judgment by
bull_v1 appends exactly one score event for the pair and bumps the
agent's score by its score_change. -/
theorem C1_settlement_scoring_witness :
    (bettingRound.status ≠ "settled" ∧
     settleState0.agents.find? (fun x => x.id == judgment0.agent_id) =
       some agentBull ∧
     settleState0.judgments.filter (fun x =>
       x.round_id == bettingRound.round_id &&
       x.agent_id == judgment0.agent_id) = [judgment0]) ∧
    ((settleRoundBatch settleState0 bettingRound meta0 DEFAULT_CONFIG
        5).score_events.filter
        (fun ev => ev.agent_id == judgment0.agent_id) =
      settleState0.score_events.filter
        (fun ev => ev.agent_id == judgment0.agent_id) ++
      [{ agent_id := agentBull.id, round_id := verdict0.round_id,
         confidence := judgment0.confidence,
         correct := (judgment0.direction == verdict0.result),
         score_change := if judgment0.direction = verdict0.result
           then judgment0.confidence
           else -(jsRound ((judgment0.confidence : ℚ) * (3/2))),
         reason := if judgment0.direction == verdict0.result then "Correct"
           else "High confidence failure",
         timestamp := verdict0.timestamp }] ∧
     (settleRoundBatch settleState0 bettingRound meta0 DEFAULT_CONFIG
        5).agents.find? (fun x => x.id == judgment0.agent_id) =
      some { agentBull with score := agentBull.score +
        (if judgment0.direction = verdict0.result
         then judgment0.confidence
         else -(jsRound ((judgment0.confidence : ℚ) * (3/2)))) }) :=
  ⟨⟨by decide, by decide, by decide⟩,
   C1_settlement_scoring settleState0 bettingRound meta0 DEFAULT_CONFIG 5
     verdict0 judgment0 agentBull (by decide) rfl (by decide) (by decide)⟩

lemma sumScoreEvents_append (l1 l2 : List ScoreEvent) (aid : String) :
    sumScoreEvents (l1 ++ l2) aid =
    sumScoreEvents l1 aid + sumScoreEvents l2 aid := by
  unfold sumScoreEvents
  rw [List.filter_append, List.map_append, List.sum_append]

lemma sumScoreEvents_entries (entries : List (Judgment × Agent))
    (v : Verdict) (aid : String) :
    sumScoreEvents (entries.map (fun e => mkScoreEvent e.1 e.2 v)) aid =
    sumDeltas entries v.result aid := by
  unfold sumScoreEvents sumDeltas
  rw [List.filter_map, List.map_map]
  rfl

/-- Counterexample to C2: the freshly seeded store is reachable (zero
steps) and its agents carry seed score 1000 with no score events, so an
agent's score is not the sum of its stored score events. -/
theorem C2_counterexample :
    ∃ (cfg : RuntimeConfig) (s : State) (a : Agent),
      Reachable cfg s ∧ a ∈ s.agents ∧
      a.score ≠ sumScoreEvents s.score_events a.id :=
  ⟨DEFAULT_CONFIG, initState, agentBull, Relation.ReflTransGen.refl,
   by decide, by decide⟩

/-- Claim C2 (amended): settlement's atomic batch preserves the offset
invariant "score = base(id) + Σ score_events(id)" for every base
offset: each agent's score grows by exactly the total score_change of
the events the batch appends for it.  (The absolute equality of the
claim fails: agents are seeded at 1000 with no events, and the
retention trim can delete old events without adjusting scores.) -/
theorem C2_score_event_sum (s : State) (round : Round) (meta : MetaState)
    (cfg : RuntimeConfig) (ts : ℤ) (base : String → ℤ)
    (hinv : ∀ a ∈ s.agents, a.score = base a.id +
        sumScoreEvents s.score_events a.id) :
    ∀ a ∈ (settleRoundBatch s round meta cfg ts).agents,
      a.score = base a.id +
        sumScoreEvents (settleRoundBatch s round meta cfg ts).score_events
          a.id := by
  intro a2 ha2
  unfold settleRoundBatch at ha2 ⊢
  by_cases hstat : round.status = "settled"
  · rw [if_pos hstat] at ha2 ⊢
    exact hinv a2 ha2
  · rw [if_neg hstat] at ha2 ⊢
    simp only [] at ha2 ⊢
    rw [foldl_updAgentScore] at ha2
    rw [List.mem_map] at ha2
    obtain ⟨a, ha, rfl⟩ := ha2
    simp only []
    rw [sumScoreEvents_append, hinv a ha, sumScoreEvents_entries]
    ring

/-- Witness for C2's amended theorem: settling the one-judgment betting
round keeps every agent's score equal to 1000 plus its score-event sum
(the seeded store satisfies that offset invariant with base 1000). -/
theorem C2_score_event_sum_witness :
    (∀ a ∈ settleState0.agents,
      a.score = (fun _ : String => (1000 : ℤ)) a.id +
        sumScoreEvents settleState0.score_events a.id) ∧
    ∀ a ∈ (settleRoundBatch settleState0 bettingRound meta0 DEFAULT_CONFIG
        5).agents,
      a.score = (fun _ : String => (1000 : ℤ)) a.id +
        sumScoreEvents (settleRoundBatch settleState0 bettingRound meta0
          DEFAULT_CONFIG 5).score_events a.id :=
  ⟨by decide, C2_score_event_sum settleState0 bettingRound meta0
    DEFAULT_CONFIG 5 (fun _ => 1000) (by decide)⟩

end BookApi
